import Mathlib

/-!
# Wintermute shader renderer (base_render_opengl3d_shader.cpp)

A shallow embedding of `BaseRenderOpenGL3DShader`, the programmable-pipeline
backend of the Wintermute 3D renderer, together with the part of the OpenGL
context it drives.

Conventions of the embedding:

* C++ `float` values are rationals: every float expression of the source is
  read in exact arithmetic.
* C++ `int` values are integers.  The viewport setters `setViewport` and
  `setViewport3D`, whose arguments range over every 32-bit value, compute in
  32-bit two's complement (`wrapInt32`) and store into the unsigned members of
  `DXViewport` modulo 2^32 (`toUInt32`).  Elsewhere integer expressions are
  read exactly, that is, for values on which they do not overflow.
* Pointers to collaborators (cameras, textures, meshes) are `Option Nat`:
  `none` is the null pointer, `some p` an object whose current contents are
  looked up in the environment `Env`.
* The OpenGL context is an explicit record `GLState`.  Each GL entry point
  updates the pipeline state it owns and appends itself to `GLState.calls`.
* Everything the source uses but does not define (constants, colour macros,
  matrix helpers, the game object, the base-class projection parameters) is a
  field of `Env`, passed to the operations that read it.
-/

namespace Wintermute

/-! ## Geometric value types -/

/-- The `DXMatrix` of the source: a 4x4 matrix, `_ij` being row `i-1`, column `j-1`. -/
abbrev DXMatrix := Matrix (Fin 4) (Fin 4) ℚ

/-- The `Math::Matrix3` of the source. -/
abbrev Matrix3 := Matrix (Fin 3) (Fin 3) ℚ

/-- Overwrites one entry of a 4x4 matrix (`m.matrix._ij = v`). -/
def DXMatrix.setEntry (m : DXMatrix) (i j : Fin 4) (v : ℚ) : DXMatrix :=
  fun a b => if a = i ∧ b = j then v else m a b

/-- The `Rect32` rectangle: four integer edges. -/
structure Rect32 where
  left : Int
  top : Int
  right : Int
  bottom : Int
  deriving DecidableEq

/-- The `setRect(left, top, right, bottom)` member. -/
def Rect32.setRect (_r : Rect32) (left top right bottom : Int) : Rect32 :=
  { left := left, top := top, right := right, bottom := bottom }

/-- The `width()` member. -/
def Rect32.width (r : Rect32) : Int := r.right - r.left

/-- The `height()` member. -/
def Rect32.height (r : Rect32) : Int := r.bottom - r.top

/-- The `Wintermute::Vector2` of the source. -/
structure Vector2 where
  x : ℚ
  y : ℚ
  deriving DecidableEq

/-- The `DXVector3` of the source. -/
structure DXVector3 where
  _x : ℚ
  _y : ℚ
  _z : ℚ
  deriving DecidableEq

/-- The `DXVector4` of the source. -/
structure DXVector4 where
  _x : ℚ
  _y : ℚ
  _z : ℚ
  _w : ℚ
  deriving DecidableEq

/-- The `Math::Vector4d` of the source. -/
structure Vector4d where
  x : ℚ
  y : ℚ
  z : ℚ
  w : ℚ
  deriving DecidableEq

/-- The values a 32-bit `int` of the source can hold: `-2^31` up to `2^31 - 1`. -/
abbrev isInt32 (x : Int) : Prop := -2147483648 ≤ x ∧ x ≤ 2147483647

/-- The result of 32-bit `int` arithmetic, and of converting an unsigned 32-bit value to
`int`: the exact value reduced modulo `2^32` into the range of `int` (two's complement). -/
def wrapInt32 (x : Int) : Int := (x + 2147483648) % 4294967296 - 2147483648

/-- Conversion of an `int` to the unsigned 32-bit `uint32`: reduction modulo `2^32`. -/
def toUInt32 (x : Int) : Nat := (x % 4294967296).toNat

/-- The `DXViewport` of the source (the four members the renderer writes).  The members
are unsigned 32-bit (`uint32`), as in the D3D viewport the structure mirrors. -/
structure DXViewport where
  _x : Nat
  _y : Nat
  _width : Nat
  _height : Nat
  deriving DecidableEq

/-- The `SpriteVertexShader` vertex record. -/
structure SpriteVertexShader where
  x : ℚ
  y : ℚ
  u : ℚ
  v : ℚ
  r : ℚ
  g : ℚ
  b : ℚ
  a : ℚ
  deriving DecidableEq

/-! ## Enumerations -/

/-- Pipeline mode of the renderer (`_state`). -/
inductive TRendererState where
  | RSTATE_NONE
  | RSTATE_2D
  | RSTATE_3D
  | RSTATE_LINES
  deriving DecidableEq

/-- The `Graphics::TSpriteBlendMode` enumeration; `other` stands for every value
the `switch` of `setSpriteBlendMode` sends to its `default` branch besides
`BLEND_UNKNOWN`. -/
inductive TSpriteBlendMode where
  | BLEND_UNKNOWN
  | BLEND_NORMAL
  | BLEND_ADDITIVE
  | BLEND_SUBTRACTIVE
  | other (tag : Nat)
  deriving DecidableEq

/-- Capabilities toggled with `glEnable` / `glDisable`. -/
inductive GLCap where
  | GL_DEPTH_TEST
  | GL_STENCIL_TEST
  | GL_CULL_FACE
  | GL_BLEND
  | GL_ALPHA_TEST
  deriving DecidableEq

/-- Winding order given to `glFrontFace`. -/
inductive GLWinding where
  | GL_CCW
  | GL_CW
  deriving DecidableEq

/-- Blend factors given to `glBlendFunc`. -/
inductive GLFactor where
  | GL_ZERO
  | GL_ONE
  | GL_SRC_ALPHA
  | GL_ONE_MINUS_SRC_ALPHA
  | GL_ONE_MINUS_SRC_COLOR
  deriving DecidableEq

/-- Primitive kinds given to `glDrawArrays`. -/
inductive GLPrimitive where
  | GL_TRIANGLE_STRIP
  | GL_LINES
  deriving DecidableEq

/-- Texture parameters set with `glTexParameteri`. -/
inductive GLTexParam where
  | GL_TEXTURE_WRAP_S
  | GL_TEXTURE_WRAP_T
  deriving DecidableEq

/-- Texture wrap modes. -/
inductive GLWrap where
  | GL_REPEAT
  | GL_CLAMP_TO_EDGE
  deriving DecidableEq

/-- The seven shader programs the renderer holds, named after its members. -/
inductive ShaderProgram where
  | _spriteShader
  | _geometryShader
  | _shadowVolumeShader
  | _shadowMaskShader
  | _xmodelShader
  | _fadeShader
  | _lineShader
  deriving DecidableEq

/-- Name of a shader uniform.  `plain s` is the literal name `s`;
`lights index member` is the name `Common::String::format` builds from the
pattern `lights[%i].member`, kept structured (array index and member). -/
inductive UniformName where
  | plain (name : String)
  | lights (index : Int) (member : String)
  deriving DecidableEq

/-- Value uploaded to a shader uniform. -/
inductive UniformValue where
  | float (x : ℚ)
  | bool (b : Bool)
  | vec4 (v : Vector4d)
  | mat3 (m : Matrix3)
  | mat4 (m : DXMatrix)
  deriving DecidableEq

/-- Contents of a GPU vertex buffer. -/
inductive BufferData where
  | empty
  | sprite (vertices : List SpriteVertexShader)
  | floats (coords : List ℚ)
  deriving DecidableEq

/-- One call made on the graphics context, with its arguments. -/
inductive GLCall where
  | enable (cap : GLCap)
  | disable (cap : GLCap)
  | frontFace (mode : GLWinding)
  | blendFunc (sfactor dfactor : GLFactor)
  | viewport (x y width height : Int)
  | bindTexture (texture : Nat)
  | texParameteri (pname : GLTexParam) (param : GLWrap)
  | bindBuffer (buffer : Nat)
  | bufferSubData (data : BufferData)
  | drawArrays (mode : GLPrimitive) (first count : Int)
  | readPixels (x y width height : Int)
  | useProgram (program : ShaderProgram)
  | setUniform (program : ShaderProgram) (name : UniformName) (value : UniformValue)
  | meshRender (mesh : Nat)
  deriving DecidableEq

/-! ## The graphics context -/

/-- The part of the OpenGL context the renderer reads or writes. -/
structure GLState where
  /-- Capability flags (`glEnable` / `glDisable`). -/
  enabled : GLCap → Bool
  /-- Front-face winding (`glFrontFace`). -/
  frontFace : GLWinding
  /-- Source blend factor (`glBlendFunc`). -/
  blendSrc : GLFactor
  /-- Destination blend factor (`glBlendFunc`). -/
  blendDst : GLFactor
  /-- Viewport rectangle `(x, y, width, height)` (`glViewport`). -/
  viewport : Int × Int × Int × Int
  /-- Texture bound to `GL_TEXTURE_2D`; `0` is no texture. -/
  texture2D : Nat
  /-- Wrap parameters of every texture object. -/
  texParameter : Nat → GLTexParam → GLWrap
  /-- Buffer bound to `GL_ARRAY_BUFFER`; `0` is no buffer. -/
  arrayBuffer : Nat
  /-- Contents of every buffer object. -/
  bufferData : Nat → BufferData
  /-- Program made current by the last `use()`. -/
  program : Option ShaderProgram
  /-- Uniform values of every program; `none` when never set. -/
  uniforms : ShaderProgram → UniformName → Option UniformValue
  /-- Every call made so far, oldest first. -/
  calls : List GLCall

namespace GLState

/-- Appends a call to the trace. -/
def issue (g : GLState) (c : GLCall) : GLState :=
  { g with calls := g.calls ++ [c] }

/-- The GL call `glEnable(cap)`. -/
def glEnable (g : GLState) (cap : GLCap) : GLState :=
  { g.issue (.enable cap) with enabled := fun c => if c = cap then true else g.enabled c }

/-- The GL call `glDisable(cap)`. -/
def glDisable (g : GLState) (cap : GLCap) : GLState :=
  { g.issue (.disable cap) with enabled := fun c => if c = cap then false else g.enabled c }

/-- The GL call `glFrontFace(mode)`. -/
def glFrontFace (g : GLState) (mode : GLWinding) : GLState :=
  { g.issue (.frontFace mode) with frontFace := mode }

/-- The GL call `glBlendFunc(sfactor, dfactor)`. -/
def glBlendFunc (g : GLState) (sfactor dfactor : GLFactor) : GLState :=
  { g.issue (.blendFunc sfactor dfactor) with blendSrc := sfactor, blendDst := dfactor }

/-- The GL call `glViewport(x, y, width, height)`. -/
def glViewport (g : GLState) (x y width height : Int) : GLState :=
  { g.issue (.viewport x y width height) with viewport := (x, y, width, height) }

/-- The GL call `glBindTexture(GL_TEXTURE_2D, texture)`. -/
def glBindTexture (g : GLState) (texture : Nat) : GLState :=
  { g.issue (.bindTexture texture) with texture2D := texture }

/-- The GL call `glTexParameteri(GL_TEXTURE_2D, pname, param)`: sets the parameter
of the texture currently bound. -/
def glTexParameteri (g : GLState) (pname : GLTexParam) (param : GLWrap) : GLState :=
  { g.issue (.texParameteri pname param) with
    texParameter := fun t p =>
      if t = g.texture2D ∧ p = pname then param else g.texParameter t p }

/-- The GL call `glBindBuffer(GL_ARRAY_BUFFER, buffer)`. -/
def glBindBuffer (g : GLState) (buffer : Nat) : GLState :=
  { g.issue (.bindBuffer buffer) with arrayBuffer := buffer }

/-- The GL call `glBufferSubData(GL_ARRAY_BUFFER, 0, size, data)` replacing the whole
contents of the buffer currently bound. -/
def glBufferSubData (g : GLState) (data : BufferData) : GLState :=
  { g.issue (.bufferSubData data) with
    bufferData := fun b => if b = g.arrayBuffer then data else g.bufferData b }

/-- The GL call `glDrawArrays(mode, first, count)`. -/
def glDrawArrays (g : GLState) (mode : GLPrimitive) (first count : Int) : GLState :=
  g.issue (.drawArrays mode first count)

/-- The GL call `glReadPixels(x, y, width, height, ...)`. -/
def glReadPixels (g : GLState) (x y width height : Int) : GLState :=
  g.issue (.readPixels x y width height)

/-- The `OpenGL::Shader::use()` member of program `p`. -/
def use (g : GLState) (p : ShaderProgram) : GLState :=
  { g.issue (.useProgram p) with program := some p }

/-- The `OpenGL::Shader::setUniform(name, value)` member of program `p`
(also `setUniform1f`). -/
def setUniform (g : GLState) (p : ShaderProgram) (name : UniformName)
    (value : UniformValue) : GLState :=
  { g.issue (.setUniform p name value) with
    uniforms := fun q n => if q = p ∧ n = name then some value else g.uniforms q n }

/-- The `render()` member of a mesh collaborator, recorded in the trace. -/
def meshRender (g : GLState) (mesh : Nat) : GLState :=
  g.issue (.meshRender mesh)

end GLState

/-! ## Collaborators outside the renderer -/

/-- The members of `Camera3D` the renderer reads. -/
structure Camera3D where
  /-- Result of `getViewMatrix`. -/
  viewMatrix : DXMatrix
  _fov : ℚ
  _nearClipPlane : ℚ
  _farClipPlane : ℚ

/-- The members of `BaseGame` (`_gameRef`) the renderer reads. -/
structure BaseGame where
  /-- Result of `getAmbientLightColor()`. -/
  ambientLightColor : Nat
  /-- Output `fogEnabled` of `getFogParams`. -/
  fogEnabled : Bool
  /-- Output `fogColor` of `getFogParams`. -/
  fogColor : Nat
  /-- Output of `getCurrentViewportRect`. -/
  currentViewportRect : Rect32
  _offsetX : Int
  _offsetY : Int

/-- Outputs of the base-class call `getProjectionParams`. -/
structure ProjectionParams where
  resWidth : ℚ
  resHeight : ℚ
  layerWidth : ℚ
  layerHeight : ℚ
  modWidth : ℚ
  modHeight : ℚ
  customViewport : Bool

/-- The members of a `BaseSurfaceOpenGL3D` texture the renderer reads. -/
structure BaseSurfaceOpenGL3D where
  /-- Result of `getTextureName()`. -/
  textureName : Nat
  /-- Result of `getGLTextureWidth()`. -/
  glTextureWidth : Int
  /-- Result of `getGLTextureHeight()`. -/
  glTextureHeight : Int

/-- Everything the renderer uses that the translation unit does not define. -/
structure Env where
  /-- The constant `DEFAULT_NEAR_PLANE`. -/
  DEFAULT_NEAR_PLANE : ℚ
  /-- The constant `DEFAULT_FAR_PLANE`. -/
  DEFAULT_FAR_PLANE : ℚ
  /-- The colour macro `RGBCOLGetA`, from a packed `uint32` colour to a `byte`. -/
  RGBCOLGetA : Nat → Fin 256
  /-- The colour macro `RGBCOLGetR`. -/
  RGBCOLGetR : Nat → Fin 256
  /-- The colour macro `RGBCOLGetG`. -/
  RGBCOLGetG : Nat → Fin 256
  /-- The colour macro `RGBCOLGetB`. -/
  RGBCOLGetB : Nat → Fin 256
  /-- The helper `DXMatrixPerspectiveFovLH(fov, aspect, near, far)`. -/
  DXMatrixPerspectiveFovLH : ℚ → ℚ → ℚ → ℚ → DXMatrix
  /-- The helper `DXMatrixInverse`. -/
  DXMatrixInverse : DXMatrix → DXMatrix
  /-- The helper `build2dTransformation(center, angle)`. -/
  build2dTransformation : Vector2 → ℚ → Matrix3
  /-- The game object `_gameRef`. -/
  game : BaseGame
  /-- The camera behind every non-null camera pointer. -/
  cameras : Nat → Camera3D
  /-- The texture behind every non-null texture pointer. -/
  textures : Nat → BaseSurfaceOpenGL3D
  /-- Outputs of `getProjectionParams` in the current state. -/
  projectionParams : ProjectionParams

/-- Conversion of a float to `int`: truncation toward zero. -/
def truncToInt (q : ℚ) : Int :=
  if 0 ≤ q then ⌊q⌋ else ⌈q⌉

/-! ## The renderer -/

/-- The members of `BaseRenderOpenGL3DShader` (its own and the inherited ones
the translation unit touches) together with the graphics context `gl`. -/
structure BaseRenderOpenGL3DShader where
  _width : Int
  _height : Int
  _windowed : Bool
  _active : Bool
  _state : TRendererState
  _camera : Option Nat
  _fov : ℚ
  _nearClipPlane : ℚ
  _farClipPlane : ℚ
  _viewMatrix : DXMatrix
  _projectionMatrix : DXMatrix
  _projectionMatrix2d : DXMatrix
  _worldMatrix : DXMatrix
  _transformStack : List DXMatrix
  _ambientLightColor : Nat
  _ambientLightOverride : Bool
  _viewportRect : Rect32
  _viewport : DXViewport
  _drawOffsetX : Int
  _drawOffsetY : Int
  _forceAlphaColor : Nat
  _spriteBatchMode : Bool
  _batchTexture : Option Nat
  _batchAlphaDisable : Bool
  _batchBlendMode : TSpriteBlendMode
  _lastTexture : Option Nat
  _blendMode : TSpriteBlendMode
  _spriteVBO : Nat
  _fadeVBO : Nat
  _lineVBO : Nat
  gl : GLState

namespace BaseRenderOpenGL3DShader

/-- Applies a graphics-context call to the renderer's context. -/
def onGL (r : BaseRenderOpenGL3DShader) (f : GLState → GLState) : BaseRenderOpenGL3DShader :=
  { r with gl := f r.gl }

/-- The method `getMaxActiveLights`. -/
def getMaxActiveLights : Int := 8

/-- The method `setViewTransform`. -/
def setViewTransform (r : BaseRenderOpenGL3DShader) (transform : DXMatrix) :
    Bool × BaseRenderOpenGL3DShader :=
  (true, { r with _viewMatrix := transform })

/-- The method `setProjectionTransform`. -/
def setProjectionTransform (r : BaseRenderOpenGL3DShader) (transform : DXMatrix) :
    Bool × BaseRenderOpenGL3DShader :=
  (true, { r with _projectionMatrix := transform })

/-- The method `setWorldTransform`. -/
def setWorldTransform (env : Env) (r : BaseRenderOpenGL3DShader) (transform : DXMatrix) :
    Bool × BaseRenderOpenGL3DShader :=
  let r := { r with _worldMatrix := transform }
  let world := transform
  let newInvertedTranspose := world * r._viewMatrix
  let newInvertedTranspose := env.DXMatrixInverse newInvertedTranspose
  let newInvertedTranspose := newInvertedTranspose.transpose
  let modelMatrix := world
  let normalMatrix := newInvertedTranspose
  let r := r.onGL fun g => g.use ._xmodelShader
  let r := r.onGL fun g => g.setUniform ._xmodelShader (.plain "modelMatrix") (.mat4 modelMatrix)
  let r := r.onGL fun g => g.setUniform ._xmodelShader (.plain "normalMatrix") (.mat4 normalMatrix)
  let r := r.onGL fun g => g.use ._shadowVolumeShader
  let r := r.onGL fun g =>
    g.setUniform ._shadowVolumeShader (.plain "modelMatrix") (.mat4 modelMatrix)
  (true, r)

/-- The method `setProjection2D`. -/
def setProjection2D (r : BaseRenderOpenGL3DShader) : Bool × BaseRenderOpenGL3DShader :=
  let nearPlane : ℚ := -1
  let farPlane : ℚ := 100
  let m : DXMatrix := 1
  let m := m.setEntry 0 0 (2 / (r._width : ℚ))
  let m := m.setEntry 1 1 (2 / (r._height : ℚ))
  let m := m.setEntry 2 2 (2 / (farPlane - nearPlane))
  let m := m.setEntry 3 0 (-1)
  let m := m.setEntry 3 1 (-1)
  let m := m.setEntry 3 2 (-(farPlane + nearPlane) / (farPlane - nearPlane))
  let r := { r with _projectionMatrix2d := m }
  let projectionMatrix2d := r._projectionMatrix2d
  let r := r.onGL fun g => g.use ._shadowMaskShader
  let r := r.onGL fun g =>
    g.setUniform ._shadowMaskShader (.plain "projMatrix") (.mat4 projectionMatrix2d)
  (true, r)

/-- The method `setProjection`. -/
def setProjection (env : Env) (r : BaseRenderOpenGL3DShader) :
    Bool × BaseRenderOpenGL3DShader :=
  let pp := env.projectionParams
  let rc := env.game.currentViewportRect
  let viewportWidth : ℚ := (rc.right : ℚ) - (rc.left : ℚ)
  let viewportHeight : ℚ := (rc.bottom : ℚ) - (rc.top : ℚ)
  -- margins
  let mleft : Int := rc.left
  let mright : Int := truncToInt (pp.resWidth - viewportWidth - (rc.left : ℚ))
  let mtop : Int := rc.top
  let mbottom : Int := truncToInt (pp.resHeight - viewportHeight - (rc.top : ℚ))
  let matProj := env.DXMatrixPerspectiveFovLH r._fov (viewportWidth / viewportHeight)
    r._nearClipPlane r._farClipPlane
  let scaleMod : ℚ := pp.resHeight / viewportHeight
  let scaleRatio : ℚ := max (pp.layerWidth / pp.resWidth) (pp.layerHeight / pp.resHeight)
  let offsetX : ℚ := (env.game._offsetX : ℚ)
  let offsetY : ℚ := (env.game._offsetY : ℚ)
  let offsetX := if !pp.customViewport then offsetX - (r._drawOffsetX : ℚ) else offsetX
  let offsetY := if !pp.customViewport then offsetY - (r._drawOffsetY : ℚ) else offsetY
  let matProj := matProj.setEntry 0 0 (matProj 0 0 * (scaleRatio * scaleMod))
  let matProj := matProj.setEntry 1 1 (matProj 1 1 * (scaleRatio * scaleMod))
  let matProj := matProj.setEntry 2 0
    (-(offsetX + (((mleft - mright).tdiv 2 : Int) : ℚ) - pp.modWidth) / viewportWidth * 2)
  let matProj := matProj.setEntry 2 1
    ((offsetY + (((mtop - mbottom).tdiv 2 : Int) : ℚ) - pp.modHeight) / viewportHeight * 2)
  r.setProjectionTransform matProj

/-- The method `setAmbientLightRenderState`. -/
def setAmbientLightRenderState (env : Env) (r : BaseRenderOpenGL3DShader) :
    BaseRenderOpenGL3DShader :=
  let a := env.RGBCOLGetA r._ambientLightColor
  let red := env.RGBCOLGetR r._ambientLightColor
  let g := env.RGBCOLGetG r._ambientLightColor
  let b := env.RGBCOLGetB r._ambientLightColor
  let color := env.game.ambientLightColor
  let a := if !r._ambientLightOverride then env.RGBCOLGetA color else a
  let red := if !r._ambientLightOverride then env.RGBCOLGetR color else red
  let g := if !r._ambientLightOverride then env.RGBCOLGetG color else g
  let b := if !r._ambientLightOverride then env.RGBCOLGetB color else b
  let value : Vector4d :=
    { x := (red.val : ℚ) / 255, y := (g.val : ℚ) / 255, z := (b.val : ℚ) / 255,
      w := (a.val : ℚ) / 255 }
  let r := r.onGL fun gl => gl.use ._xmodelShader
  r.onGL fun gl => gl.setUniform ._xmodelShader (.plain "ambientLight") (.vec4 value)

/-- The method `setup2D`. -/
def setup2D (r : BaseRenderOpenGL3DShader) (force : Bool) : Bool × BaseRenderOpenGL3DShader :=
  if r._state ≠ .RSTATE_2D || force then
    let r := { r with _state := .RSTATE_2D }
    -- some states are still missing here
    let r := r.onGL fun g => g.glDisable .GL_DEPTH_TEST
    let r := r.onGL fun g => g.glDisable .GL_STENCIL_TEST
    let r := r.onGL fun g => g.glEnable .GL_CULL_FACE
    let r := r.onGL fun g => g.glFrontFace .GL_CCW
    let r := r.onGL fun g => g.glEnable .GL_BLEND
    let r := r.onGL fun g => g.glBlendFunc .GL_SRC_ALPHA .GL_ONE_MINUS_SRC_ALPHA
    let r := r.onGL fun g => g.glViewport 0 0 r._width r._height
    let r := (r.setProjection2D).2
    (true, r)
  else
    (true, r)

/-- The camera block of `setup3D`: `if (camera) _camera = camera;` followed by
`if (_camera) { ... } else { ... }`, which sets the view matrix, the field of view and the
two clip planes. -/
def resolveCamera (env : Env) (r : BaseRenderOpenGL3DShader) (camera : Option Nat) :
    BaseRenderOpenGL3DShader :=
  let r := if camera.isSome then { r with _camera := camera } else r
  match r._camera with
  | some c =>
    let cam := env.cameras c
    let viewMatrix := cam.viewMatrix
    let r := (r.setViewTransform viewMatrix).2
    let r := { r with _fov := cam._fov }
    let r :=
      if cam._nearClipPlane ≥ 0 then { r with _nearClipPlane := cam._nearClipPlane }
      else { r with _nearClipPlane := env.DEFAULT_NEAR_PLANE }
    let r :=
      if cam._farClipPlane ≥ 0 then { r with _farClipPlane := cam._farClipPlane }
      else { r with _farClipPlane := env.DEFAULT_FAR_PLANE }
    r
  | none =>
    { r with _nearClipPlane := env.DEFAULT_NEAR_PLANE, _farClipPlane := env.DEFAULT_FAR_PLANE }

/-- The first part of `setup3D`, run when the mode is entered: the body of
`if (_state != RSTATE_3D || force)`. -/
def enter3D (env : Env) (r : BaseRenderOpenGL3DShader) (camera : Option Nat) :
    BaseRenderOpenGL3DShader :=
  let r := { r with _state := .RSTATE_3D }
  let r := r.onGL fun g => g.glEnable .GL_DEPTH_TEST
  let r := r.onGL fun g => g.glEnable .GL_BLEND
  let r := r.setAmbientLightRenderState env
  let r := r.resolveCamera env camera
  -- fog: the parameters are fetched and only written to the debug log
  let r := r.onGL fun g =>
    g.glViewport r._viewportRect.left (r._height - r._viewportRect.bottom)
      r._viewportRect.width r._viewportRect.height
  (r.setProjection env).2

/-- The method `setup3D`. -/
def setup3D (env : Env) (r : BaseRenderOpenGL3DShader) (camera : Option Nat) (force : Bool) :
    Bool × BaseRenderOpenGL3DShader :=
  let r := if r._state ≠ .RSTATE_3D || force then r.enter3D env camera else r
  let viewMatrix := r._viewMatrix
  let projectionMatrix := r._projectionMatrix
  let r := r.onGL fun g => g.use ._xmodelShader
  let r := r.onGL fun g => g.setUniform ._xmodelShader (.plain "viewMatrix") (.mat4 viewMatrix)
  let r := r.onGL fun g =>
    g.setUniform ._xmodelShader (.plain "projMatrix") (.mat4 projectionMatrix)
  -- this is 8 / 255, since 8 is the value used by wme (as a DWORD)
  let r := r.onGL fun g => g.setUniform ._xmodelShader (.plain "alphaRef") (.float (31 / 1000))
  let r := r.onGL fun g => g.use ._geometryShader
  let r := r.onGL fun g => g.setUniform ._geometryShader (.plain "viewMatrix") (.mat4 viewMatrix)
  let r := r.onGL fun g =>
    g.setUniform ._geometryShader (.plain "projMatrix") (.mat4 projectionMatrix)
  let r := r.onGL fun g => g.use ._shadowVolumeShader
  let r := r.onGL fun g =>
    g.setUniform ._shadowVolumeShader (.plain "viewMatrix") (.mat4 viewMatrix)
  let r := r.onGL fun g =>
    g.setUniform ._shadowVolumeShader (.plain "projMatrix") (.mat4 projectionMatrix)
  (true, r)

/-- The method `setupLines`. -/
def setupLines (r : BaseRenderOpenGL3DShader) : Bool × BaseRenderOpenGL3DShader :=
  if r._state ≠ .RSTATE_LINES then
    let r := { r with _state := .RSTATE_LINES }
    let r := r.onGL fun g => g.glDisable .GL_DEPTH_TEST
    let r := r.onGL fun g => g.glFrontFace .GL_CW
    let r := r.onGL fun g => g.glEnable .GL_CULL_FACE
    let r := r.onGL fun g => g.glEnable .GL_BLEND
    let r := r.onGL fun g => g.glEnable .GL_ALPHA_TEST
    let r := r.onGL fun g => g.glBindTexture 0
    (true, r)
  else
    (true, r)

/-- The method `setSpriteBlendMode(blendMode, forceChange)`. -/
def setSpriteBlendMode (r : BaseRenderOpenGL3DShader) (blendMode : TSpriteBlendMode)
    (forceChange : Bool) : BaseRenderOpenGL3DShader :=
  if blendMode = r._blendMode ∧ forceChange = false then r
  else
    let r := { r with _blendMode := blendMode }
    match r._blendMode with
    | .BLEND_NORMAL => r.onGL fun g => g.glBlendFunc .GL_SRC_ALPHA .GL_ONE_MINUS_SRC_ALPHA
    | .BLEND_ADDITIVE => r.onGL fun g => g.glBlendFunc .GL_SRC_ALPHA .GL_ONE
    | .BLEND_SUBTRACTIVE => r.onGL fun g => g.glBlendFunc .GL_ZERO .GL_ONE_MINUS_SRC_COLOR
    | _ => r

/-- The method `commitSpriteBatch`.  The result is `none` when the method dereferences a
null `_batchTexture`. -/
def commitSpriteBatch (env : Env) (r : BaseRenderOpenGL3DShader) :
    Option (Bool × BaseRenderOpenGL3DShader) :=
  -- render
  let r := r.setSpriteBlendMode r._batchBlendMode false
  let r :=
    if r._batchAlphaDisable then
      (r.onGL fun g => g.glDisable .GL_ALPHA_TEST).onGL fun g => g.glDisable .GL_BLEND
    else r
  let bound : Option BaseRenderOpenGL3DShader :=
    if r._lastTexture ≠ r._batchTexture then
      let r := { r with _lastTexture := r._batchTexture }
      match r._batchTexture with
      | some t => some (r.onGL fun g => g.glBindTexture (env.textures t).textureName)
      | none => none
    else some r
  bound.map fun r =>
    let r :=
      if r._batchAlphaDisable then
        (r.onGL fun g => g.glEnable .GL_ALPHA_TEST).onGL fun g => g.glEnable .GL_BLEND
      else r
    (true, r)

/-- The expression `(y - offset) * -1.0f + offset` that `drawSpriteEx` applies to the
sprite position and to the rotation pivot. -/
def correctedY (offset y : ℚ) : ℚ := (y - offset) * (-1) + offset

/-- The four vertices `drawSpriteEx` builds (texture coordinates, positions, colour) from
its arguments, the frame height `_height` and the texture, before they are uploaded;
`color` is the tint after the `_forceAlphaColor` override. -/
def spriteVertices (env : Env) (frameHeight : Int) (texture : BaseSurfaceOpenGL3D)
    (rect : Rect32) (pos scale : Vector2) (color : Nat) (mirrorX mirrorY : Bool) :
    List SpriteVertexShader :=
  let width : ℚ := ((rect.right - rect.left : Int) : ℚ) * scale.x
  let height : ℚ := ((rect.bottom - rect.top : Int) : ℚ) * scale.y
  let texWidth : Int := texture.glTextureWidth
  let texHeight : Int := texture.glTextureHeight
  let texLeft : ℚ := (rect.left : ℚ) / (texWidth : ℚ)
  let texTop : ℚ := (rect.top : ℚ) / (texHeight : ℚ)
  let texRight : ℚ := (rect.right : ℚ) / (texWidth : ℚ)
  let texBottom : ℚ := (rect.bottom : ℚ) / (texHeight : ℚ)
  let offset : ℚ := (frameHeight : ℚ) / 2
  let correctedYPos : ℚ := correctedY offset pos.y
  -- SWAP(texLeft, texRight) and SWAP(texTop, texBottom)
  let (texLeft, texRight) := if mirrorX then (texRight, texLeft) else (texLeft, texRight)
  let (texTop, texBottom) := if mirrorY then (texBottom, texTop) else (texTop, texBottom)
  -- not exactly sure about the color format, but this seems to work
  let a : ℚ := ((env.RGBCOLGetA color).val : ℚ) / 255
  let red : ℚ := ((env.RGBCOLGetR color).val : ℚ) / 255
  let g : ℚ := ((env.RGBCOLGetG color).val : ℚ) / 255
  let b : ℚ := ((env.RGBCOLGetB color).val : ℚ) / 255
  [ { u := texLeft, v := texTop, x := pos.x, y := correctedYPos,
      r := red, g := g, b := b, a := a },
    { u := texLeft, v := texBottom, x := pos.x, y := correctedYPos - height,
      r := red, g := g, b := b, a := a },
    { u := texRight, v := texTop, x := pos.x + width, y := correctedYPos,
      r := red, g := g, b := b, a := a },
    { u := texRight, v := texBottom, x := pos.x + width, y := correctedYPos - height,
      r := red, g := g, b := b, a := a } ]

/-- The transform `drawSpriteEx` uploads: the identity, or for a non-zero angle the
transposed `build2dTransformation` about the Y-corrected pivot. -/
def spriteTransform (env : Env) (frameHeight : Int) (rot : Vector2) (angle : ℚ) : Matrix3 :=
  let offset : ℚ := (frameHeight : ℚ) / 2
  if angle ≠ 0 then
    let correctedRot : Vector2 := { x := rot.x, y := correctedY offset rot.y }
    (env.build2dTransformation correctedRot angle).transpose
  else 1

/-- The last part of `drawSpriteEx` (from `projectionMatrix2d.setData` on): uploads the
uniforms and the quad, then, outside batch mode, sets the blend mode and draws. -/
def submitSprite (r : BaseRenderOpenGL3DShader) (vertices : List SpriteVertexShader)
    (transform : Matrix3) (alphaDisable : Bool) (blendMode : TSpriteBlendMode) :
    Bool × BaseRenderOpenGL3DShader :=
  let projectionMatrix2d := r._projectionMatrix2d
  let r := r.onGL fun g => g.use ._spriteShader
  let r := r.onGL fun g =>
    g.setUniform ._spriteShader (.plain "alphaTest") (.bool (!alphaDisable))
  let r := r.onGL fun g => g.setUniform ._spriteShader (.plain "transform") (.mat3 transform)
  let r := r.onGL fun g =>
    g.setUniform ._spriteShader (.plain "projMatrix") (.mat4 projectionMatrix2d)
  let r := r.onGL fun g => g.glBindBuffer r._spriteVBO
  let r := r.onGL fun g => g.glBufferSubData (.sprite vertices)
  let r :=
    if r._spriteBatchMode then r
    else
      let r := r.setSpriteBlendMode blendMode false
      r.onGL fun g => g.glDrawArrays .GL_TRIANGLE_STRIP 0 4
  (true, r)

/-- The method `drawSpriteEx`.  The result is `none` when the texture pointer (after the
`dynamic_cast`) is null, which the method dereferences.  The vertices and the transform
are built from locals the method computes before it commits a pending batch. -/
def drawSpriteEx (env : Env) (r : BaseRenderOpenGL3DShader) (tex : Option Nat) (rect : Rect32)
    (pos rot scale : Vector2) (angle : ℚ) (color : Nat) (alphaDisable : Bool)
    (blendMode : TSpriteBlendMode) (mirrorX mirrorY : Bool) :
    Option (Bool × BaseRenderOpenGL3DShader) :=
  match tex with
  | none => none
  | some t =>
    let texture := env.textures t
    let r :=
      if r._spriteBatchMode then
        { r with _batchTexture := some t, _batchAlphaDisable := alphaDisable,
                 _batchBlendMode := blendMode }
      else r
    let color := if r._forceAlphaColor ≠ 0 then r._forceAlphaColor else color
    let r := r.onGL fun g => g.glBindTexture texture.textureName
    -- for sprites we clamp to the edge, to avoid line fragments at the edges
    -- this is not done by wme, though
    let r := r.onGL fun g => g.glTexParameteri .GL_TEXTURE_WRAP_S .GL_CLAMP_TO_EDGE
    let r := r.onGL fun g => g.glTexParameteri .GL_TEXTURE_WRAP_T .GL_CLAMP_TO_EDGE
    let vertices := spriteVertices env r._height texture rect pos scale color mirrorX mirrorY
    let transform := spriteTransform env r._height rot angle
    -- batch mode
    let committed : Option BaseRenderOpenGL3DShader :=
      if r._spriteBatchMode then (r.commitSpriteBatch env).map fun p => p.2 else some r
    committed.map fun r => r.submitSprite vertices transform alphaDisable blendMode

/-- The method `startSpriteBatch`. -/
def startSpriteBatch (r : BaseRenderOpenGL3DShader) : Bool × BaseRenderOpenGL3DShader :=
  -- _spriteBatchMode = true;  (commented out in the source)
  (true, r)

/-- The method `endSpriteBatch`.  The result is `none` only when `commitSpriteBatch`
dereferences a null texture. -/
def endSpriteBatch (env : Env) (r : BaseRenderOpenGL3DShader) :
    Option (Bool × BaseRenderOpenGL3DShader) :=
  if r._spriteBatchMode = false then some (false, r)
  else
    let r := { r with _spriteBatchMode := false }
    r.commitSpriteBatch env

/-- The array `lineCoords` that `drawLine` uploads for frame height `_height`: the integers
`x1, _height - y1, x2, _height - y2`, converted to float. -/
def lineCoords (frameHeight : Int) (x1 y1 x2 y2 : Int) : List ℚ :=
  [((x1 : Int) : ℚ), ((frameHeight - y1 : Int) : ℚ), ((x2 : Int) : ℚ),
    ((frameHeight - y2 : Int) : ℚ)]

/-- The method `drawLine`. -/
def drawLine (env : Env) (r : BaseRenderOpenGL3DShader) (x1 y1 x2 y2 : Int) (color : Nat) :
    Bool × BaseRenderOpenGL3DShader :=
  let r := r.onGL fun g => g.glBindBuffer r._lineVBO
  let coords := lineCoords r._height x1 y1 x2 y2
  let r := r.onGL fun g => g.glBufferSubData (.floats coords)
  let colorValue : Vector4d :=
    { x := ((env.RGBCOLGetR color).val : ℚ) / 255
      y := ((env.RGBCOLGetG color).val : ℚ) / 255
      z := ((env.RGBCOLGetB color).val : ℚ) / 255
      w := ((env.RGBCOLGetA color).val : ℚ) / 255 }
  let projectionMatrix2d := r._projectionMatrix2d
  let r := r.onGL fun g => g.use ._lineShader
  let r := r.onGL fun g => g.setUniform ._lineShader (.plain "color") (.vec4 colorValue)
  let r := r.onGL fun g =>
    g.setUniform ._lineShader (.plain "projMatrix") (.mat4 projectionMatrix2d)
  let r := r.onGL fun g => g.glDrawArrays .GL_LINES 0 2
  let r := r.onGL fun g => g.glBindBuffer 0
  (true, r)

/-- The method `fadeToColor(r, g, b, a)` on `byte` channels. -/
def fadeToColor (r : BaseRenderOpenGL3DShader) (red g b a : Fin 256) :
    BaseRenderOpenGL3DShader :=
  let r := (r.setProjection2D).2
  let color : Vector4d :=
    { x := (red.val : ℚ) / 255, y := (g.val : ℚ) / 255, z := (b.val : ℚ) / 255,
      w := (a.val : ℚ) / 255 }
  let r := r.setSpriteBlendMode .BLEND_UNKNOWN false
  let r := r.onGL fun gl => gl.glDisable .GL_DEPTH_TEST
  let r := r.onGL fun gl => gl.glEnable .GL_BLEND
  let r := r.onGL fun gl => gl.glBlendFunc .GL_SRC_ALPHA .GL_ONE_MINUS_SRC_ALPHA
  let r := r.onGL fun gl => gl.glBindTexture 0
  let r := r.onGL fun gl => gl.glBindBuffer r._fadeVBO
  let r := { r with _lastTexture := none }
  let projectionMatrix2d := r._projectionMatrix2d
  let r := r.onGL fun gl => gl.use ._fadeShader
  let r := r.onGL fun gl => gl.setUniform ._fadeShader (.plain "color") (.vec4 color)
  let r := r.onGL fun gl =>
    gl.setUniform ._fadeShader (.plain "projMatrix") (.mat4 projectionMatrix2d)
  let r := r.onGL fun gl => gl.glDrawArrays .GL_TRIANGLE_STRIP 0 4
  (r.setup2D true).2

/-- The GPU side of the method `takeScreenshot`: the `glReadPixels` call it makes (the
surface handling around it does not touch the renderer). -/
def takeScreenshot (r : BaseRenderOpenGL3DShader) : BaseRenderOpenGL3DShader :=
  r.onGL fun g =>
    g.glReadPixels r._viewportRect.left (r._viewportRect.height - r._viewportRect.bottom)
      r._viewportRect.width r._viewportRect.height

/-- The method `invalidateTexture`; the argument is a texture pointer. -/
def invalidateTexture (r : BaseRenderOpenGL3DShader) (texture : Option Nat) :
    Bool × BaseRenderOpenGL3DShader :=
  let r := if r._lastTexture = texture then { r with _lastTexture := none } else r
  let r := if r._batchTexture = texture then { r with _batchTexture := none } else r
  (true, r)

/-- The method `lightEnable` (implements D3D LightEnable()). -/
def lightEnable (r : BaseRenderOpenGL3DShader) (index : Int) (enable : Bool) :
    BaseRenderOpenGL3DShader :=
  let r := r.onGL fun g => g.use ._xmodelShader
  let uniform := UniformName.lights index "enabled"
  if enable then r.onGL fun g => g.setUniform ._xmodelShader uniform (.float 1)
  else r.onGL fun g => g.setUniform ._xmodelShader uniform (.float (-1))

/-- The method `setLightParameters` (backend layer 3DLight::SetLight). -/
def setLightParameters (r : BaseRenderOpenGL3DShader) (index : Int) (position : DXVector3)
    (direction : DXVector3) (diffuse : DXVector4) (spotlight : Bool) :
    BaseRenderOpenGL3DShader :=
  let position4d : Vector4d :=
    { x := position._x, y := position._y, z := position._z, w := 1 }
  let direction4d : Vector4d :=
    { x := direction._x, y := direction._y, z := direction._z, w := 0 }
  let direction4d : Vector4d := if spotlight then { direction4d with w := -1 } else direction4d
  let diffuse4d : Vector4d :=
    { x := diffuse._x, y := diffuse._y, z := diffuse._z, w := 0 }
  let r := r.onGL fun g => g.use ._xmodelShader
  let r := r.onGL fun g =>
    g.setUniform ._xmodelShader (.lights index "_position") (.vec4 position4d)
  let r := r.onGL fun g =>
    g.setUniform ._xmodelShader (.lights index "_direction") (.vec4 direction4d)
  r.onGL fun g => g.setUniform ._xmodelShader (.lights index "_color") (.vec4 diffuse4d)

/-- The members of a scene-geometry entry (`AdWalkplane`, `AdBlock`, `AdGeneric`) that
`renderShadowGeometry` reads. -/
structure SceneEntry where
  _active : Bool
  _receiveShadows : Bool
  /-- The mesh pointer `_mesh`. -/
  _mesh : Nat
  deriving DecidableEq

/-- One of the three loops of `renderShadowGeometry`: renders the mesh of every entry
that is active and receives shadows, in collection order. -/
def renderReceivers (r : BaseRenderOpenGL3DShader) (entries : List SceneEntry) :
    BaseRenderOpenGL3DShader :=
  entries.foldl
    (fun r e => if e._active && e._receiveShadows then r.onGL fun g => g.meshRender e._mesh else r)
    r

/-- The method `renderShadowGeometry` (backend layer 3DShadowVolume::Render()).  The call
`_gameRef->_renderer3D->setup3D(camera, true)` is taken to reach this renderer. -/
def renderShadowGeometry (env : Env) (r : BaseRenderOpenGL3DShader)
    (planes blocks generics : List SceneEntry) (camera : Option Nat) :
    BaseRenderOpenGL3DShader :=
  let matIdentity : DXMatrix := 1
  let r := if camera.isSome then (r.setup3D env camera true).2 else r
  let r := (r.setWorldTransform env matIdentity).2
  -- disable color write
  let r := r.setSpriteBlendMode .BLEND_UNKNOWN false
  let r := r.onGL fun g => g.glBlendFunc .GL_ZERO .GL_ONE
  -- no texture
  let r := { r with _lastTexture := none }
  let r := r.onGL fun g => g.glBindTexture 0
  let r := r.onGL fun g => g.glFrontFace .GL_CW
  -- render blocks
  let r := r.renderReceivers blocks
  -- render walk planes
  let r := r.renderReceivers planes
  -- render generic objects
  let r := r.renderReceivers generics
  r.setSpriteBlendMode .BLEND_NORMAL false

/-- The method `enableCulling` (D3DRS_CULLMODE - CCW). -/
def enableCulling (r : BaseRenderOpenGL3DShader) : BaseRenderOpenGL3DShader :=
  (r.onGL fun g => g.glFrontFace .GL_CW).onGL fun g => g.glEnable .GL_CULL_FACE

/-- The method `disableCulling` (D3DRS_CULLMODE - NONE). -/
def disableCulling (r : BaseRenderOpenGL3DShader) : BaseRenderOpenGL3DShader :=
  r.onGL fun g => g.glDisable .GL_CULL_FACE

/-- The method `setViewport` (implements D3D SetViewport() for the 2D renderer).  The
arguments are 32-bit `int` values; the differences are 32-bit `int` arithmetic, and the
assignments to the `uint32` members of `_viewport` convert to unsigned. -/
def setViewport (r : BaseRenderOpenGL3DShader) (left top right bottom : Int) :
    Bool × BaseRenderOpenGL3DShader :=
  let r := { r with _viewportRect := r._viewportRect.setRect left top right bottom }
  let r := { r with _viewport := { r._viewport with _x := toUInt32 left } }
  let r := { r with _viewport := { r._viewport with _y := toUInt32 top } }
  let r :=
    { r with _viewport := { r._viewport with _width := toUInt32 (wrapInt32 (right - left)) } }
  let r :=
    { r with _viewport := { r._viewport with _height := toUInt32 (wrapInt32 (bottom - top)) } }
  let r := r.onGL fun g =>
    g.glViewport left (wrapInt32 (r._height - bottom)) (wrapInt32 (right - left))
      (wrapInt32 (bottom - top))
  (true, r)

/-- The method `setViewport3D` (implements D3D SetViewport() for the 3D renderer).  The
`uint32` members are converted to the 32-bit `int` parameters of `glViewport`; the
difference `_height - _viewport._height` is 32-bit arithmetic. -/
def setViewport3D (r : BaseRenderOpenGL3DShader) (viewport : DXViewport) :
    Bool × BaseRenderOpenGL3DShader :=
  let r := { r with _viewport := viewport }
  let r := r.onGL fun g =>
    g.glViewport (wrapInt32 (r._viewport._x : Int))
      (wrapInt32 (r._height - (r._viewport._height : Int)))
      (wrapInt32 (r._viewport._width : Int)) (wrapInt32 (r._viewport._height : Int))
  (true, r)

end BaseRenderOpenGL3DShader

/-! ## Material bindings of the animated model (xmodel.h) -/

namespace XModel

/-- An object handed to `delete` by a method of `XModelMatSprite`. -/
inductive Deleted where
  | sprite (p : Nat)
  | theora (p : Nat)
  deriving DecidableEq

/-- The effect of `delete p` on a sprite pointer: nothing for the null pointer. -/
def deleteSprite (p : Option Nat) : List Deleted :=
  match p with
  | some q => [.sprite q]
  | none => []

/-- The effect of `delete p` on a video pointer: nothing for the null pointer. -/
def deleteTheora (p : Option Nat) : List Deleted :=
  match p with
  | some q => [.theora q]
  | none => []

/-- The nested class `XModel::XModelMatSprite`: a material name with a sprite pointer and
a video pointer. -/
structure XModelMatSprite where
  _matName : Option String
  _sprite : Option Nat
  _theora : Option Nat
  deriving DecidableEq

namespace XModelMatSprite

/-- The default constructor `XModelMatSprite()`. -/
def new : XModelMatSprite :=
  { _matName := none, _sprite := none, _theora := none }

/-- The constructor `XModelMatSprite(matName, sprite)`; `BaseUtils::setString` copies the
name. -/
def newSprite (matName : Option String) (sprite : Option Nat) : XModelMatSprite :=
  { _theora := none, _matName := matName, _sprite := sprite }

/-- The constructor `XModelMatSprite(matName, theora)`. -/
def newTheora (matName : Option String) (theora : Option Nat) : XModelMatSprite :=
  { _sprite := none, _matName := matName, _theora := theora }

/-- The method `setSprite`: result, new record, and the objects deleted, in order. -/
def setSprite (m : XModelMatSprite) (sprite : Option Nat) :
    Bool × XModelMatSprite × List Deleted :=
  let d1 := deleteTheora m._theora
  let m := { m with _theora := none }
  let d2 := deleteSprite m._sprite
  let m := { m with _sprite := sprite }
  (true, m, d1 ++ d2)

/-- The method `setTheora`: result, new record, and the objects deleted, in order. -/
def setTheora (m : XModelMatSprite) (theora : Option Nat) :
    Bool × XModelMatSprite × List Deleted :=
  let d1 := deleteTheora m._theora
  let d2 := deleteSprite m._sprite
  let m := { m with _sprite := none }
  let m := { m with _theora := theora }
  (true, m, d1 ++ d2)

/-- One call of a setter. -/
inductive SetterCall where
  | setSprite (sprite : Option Nat)
  | setTheora (theora : Option Nat)
  deriving DecidableEq

/-- A finite sequence of setter calls, made in list order. -/
def runSetters (m : XModelMatSprite) (calls : List SetterCall) : XModelMatSprite :=
  calls.foldl
    (fun m c =>
      match c with
      | .setSprite sprite => (m.setSprite sprite).2.1
      | .setTheora theora => (m.setTheora theora).2.1)
    m

/-- The number of bindings that are active (non-null): 0, 1 or 2. -/
def activeBindings (m : XModelMatSprite) : Nat :=
  (if m._sprite.isSome then 1 else 0) + (if m._theora.isSome then 1 else 0)

end XModelMatSprite

end XModel

/-! ## Observations used in the statements -/

/-- The pipeline flags of the context: depth test, stencil test, face culling, front
face, blending, and the blend function (source and destination factor). -/
def pipelineFlags (g : GLState) : Bool × Bool × Bool × GLWinding × Bool × GLFactor × GLFactor :=
  (g.enabled .GL_DEPTH_TEST, g.enabled .GL_STENCIL_TEST, g.enabled .GL_CULL_FACE,
    g.frontFace, g.enabled .GL_BLEND, g.blendSrc, g.blendDst)

/-- The current ambient colour as a shader value: the renderer's override colour when the
override is on, otherwise the game's ambient colour, with channels
`(R/255, G/255, B/255, A/255)`. -/
def currentAmbientLight (env : Env) (r : BaseRenderOpenGL3DShader) : Vector4d :=
  let color := if r._ambientLightOverride then r._ambientLightColor
    else env.game.ambientLightColor
  { x := ((env.RGBCOLGetR color).val : ℚ) / 255
    y := ((env.RGBCOLGetG color).val : ℚ) / 255
    z := ((env.RGBCOLGetB color).val : ℚ) / 255
    w := ((env.RGBCOLGetA color).val : ℚ) / 255 }

/-- The value of the model shader's `ambientLight` uniform. -/
def ambientLightUniform (r : BaseRenderOpenGL3DShader) : Option UniformValue :=
  r.gl.uniforms ._xmodelShader (.plain "ambientLight")

/-- A finite sequence of `lightEnable(index, enable)` calls, made in list order. -/
def lightEnableSeq (r : BaseRenderOpenGL3DShader) (calls : List (Int × Bool)) :
    BaseRenderOpenGL3DShader :=
  calls.foldl (fun r c => r.lightEnable c.1 c.2) r

/-- The model shader's uniform `lights[i].member`. -/
def lightUniform (r : BaseRenderOpenGL3DShader) (i : Int) (member : String) :
    Option UniformValue :=
  r.gl.uniforms ._xmodelShader (.lights i member)

/-- The last call of a `lightEnable` sequence made with index `i`, if there is one. -/
def lastCallWithIndex (calls : List (Int × Bool)) (i : Int) : Option (Int × Bool) :=
  (calls.filter fun c => c.1 = i).getLast?

/-- The marker `lightEnable` uploads: `+1.0` for enabled, `-1.0` for disabled. -/
def enabledMarker (enable : Bool) : ℚ := if enable then 1 else -1

/-- The quad a `drawSpriteEx` call left in the sprite vertex buffer `_spriteVBO`. -/
def uploadedQuad (res : Option (Bool × BaseRenderOpenGL3DShader)) :
    Option (List SpriteVertexShader) :=
  match res with
  | some (_, r) =>
    match r.gl.bufferData r._spriteVBO with
    | .sprite vertices => some vertices
    | _ => none
  | none => none

/-- The meshes whose `render()` was called, in call order, read off a call trace. -/
def meshRenders (calls : List GLCall) : List Nat :=
  calls.filterMap fun c =>
    match c with
    | .meshRender mesh => some mesh
    | _ => none

/-- The meshes of the entries that are active and receive shadows, in collection order. -/
def shadowReceivers (entries : List BaseRenderOpenGL3DShader.SceneEntry) : List Nat :=
  (entries.filter fun e => e._active && e._receiveShadows).map fun e => e._mesh

/-- The GPU blend function each sprite blend mode prescribes (the `glBlendFunc` arguments
in `setSpriteBlendMode`); `none` for the modes that prescribe nothing. -/
def prescribedBlendFunc (blendMode : TSpriteBlendMode) : Option (GLFactor × GLFactor) :=
  match blendMode with
  | .BLEND_NORMAL => some (.GL_SRC_ALPHA, .GL_ONE_MINUS_SRC_ALPHA)
  | .BLEND_ADDITIVE => some (.GL_SRC_ALPHA, .GL_ONE)
  | .BLEND_SUBTRACTIVE => some (.GL_ZERO, .GL_ONE_MINUS_SRC_COLOR)
  | _ => none

/-- The GPU blend function currently set. -/
def blendFunc (g : GLState) : GLFactor × GLFactor := (g.blendSrc, g.blendDst)

/-- The number of triangle-strip quad draws `glDrawArrays(GL_TRIANGLE_STRIP, 0, 4)` in a
call trace. -/
def stripDraws (calls : List GLCall) : Nat :=
  calls.count (.drawArrays .GL_TRIANGLE_STRIP 0 4)

/-- The arguments of a `drawSpriteEx` call other than the texture. -/
structure SpriteArgs where
  rect : Rect32
  pos : Vector2
  rot : Vector2
  scale : Vector2
  angle : ℚ
  color : Nat
  alphaDisable : Bool
  blendMode : TSpriteBlendMode
  mirrorX : Bool
  mirrorY : Bool

/-- A `drawSpriteEx` call with its arguments packed. -/
def drawSprite (env : Env) (r : BaseRenderOpenGL3DShader) (tex : Option Nat) (a : SpriteArgs) :
    Option (Bool × BaseRenderOpenGL3DShader) :=
  r.drawSpriteEx env tex a.rect a.pos a.rot a.scale a.angle a.color a.alphaDisable a.blendMode
    a.mirrorX a.mirrorY

/-- A finite sequence of `drawSpriteEx` calls on non-null textures, made in list order;
`none` if one of them fails. -/
def drawSprites (env : Env) (r : BaseRenderOpenGL3DShader) (calls : List (Nat × SpriteArgs)) :
    Option BaseRenderOpenGL3DShader :=
  match calls with
  | [] => some r
  | c :: cs =>
    match drawSprite env r (some c.1) c.2 with
    | some (_, r1) => drawSprites env r1 cs
    | none => none

/-- One call of a public operation of the renderer, with its arguments. -/
inductive RenderOp where
  | setup2D (force : Bool)
  | setup3D (camera : Option Nat) (force : Bool)
  | setupLines
  | drawSpriteEx (tex : Option Nat) (args : SpriteArgs)
  | fadeToColor (red g b a : Fin 256)
  | renderShadowGeometry (planes blocks generics : List BaseRenderOpenGL3DShader.SceneEntry)
      (camera : Option Nat)
  | setSpriteBlendMode (blendMode : TSpriteBlendMode)

/-- The state after one public operation; `none` if the operation fails. -/
def runOp (env : Env) (r : BaseRenderOpenGL3DShader) (op : RenderOp) :
    Option BaseRenderOpenGL3DShader :=
  match op with
  | .setup2D force => some (r.setup2D force).2
  | .setup3D camera force => some (r.setup3D env camera force).2
  | .setupLines => some (r.setupLines).2
  | .drawSpriteEx tex args => (drawSprite env r tex args).map fun p => p.2
  | .fadeToColor red g b a => some (r.fadeToColor red g b a)
  | .renderShadowGeometry planes blocks generics camera =>
    some (r.renderShadowGeometry env planes blocks generics camera)
  | .setSpriteBlendMode blendMode => some (r.setSpriteBlendMode blendMode false)

/-- The state after a finite sequence of public operations, made in list order. -/
def runOps (env : Env) (r : BaseRenderOpenGL3DShader) (ops : List RenderOp) :
    Option BaseRenderOpenGL3DShader :=
  match ops with
  | [] => some r
  | op :: rest =>
    match runOp env r op with
    | some r1 => runOps env r1 rest
    | none => none

/-! ## Sample inputs

Concrete values at which the theorems below are instantiated.  The theorems
themselves hold for every environment and every renderer state. -/

/-- The context of a freshly created OpenGL context (the initial values the GL
specification gives each piece of state), with an empty trace. -/
def GLState.initial : GLState :=
  { enabled := fun _ => false
    frontFace := .GL_CCW
    blendSrc := .GL_ONE
    blendDst := .GL_ZERO
    viewport := (0, 0, 0, 0)
    texture2D := 0
    texParameter := fun _ _ => .GL_REPEAT
    arrayBuffer := 0
    bufferData := fun _ => .empty
    program := none
    uniforms := fun _ _ => none
    calls := [] }

/-- A sample game: opaque grey ambient light `0xFF808080`, no fog, an 800x600 viewport. -/
def sampleGame : BaseGame :=
  { ambientLightColor := 0xFF808080
    fogEnabled := false
    fogColor := 0
    currentViewportRect := { left := 0, top := 0, right := 800, bottom := 600 }
    _offsetX := 0
    _offsetY := 0 }

/-- A sample camera table: camera `0` sets both planes, camera `1` leaves the
near plane unset (negative), camera `2` leaves the far plane unset, every other
camera leaves both unset. -/
def sampleCameras (c : Nat) : Camera3D :=
  match c with
  | 0 => { viewMatrix := 1, _fov := 1, _nearClipPlane := 5, _farClipPlane := 2000 }
  | 1 => { viewMatrix := 1, _fov := 1, _nearClipPlane := -1, _farClipPlane := 2000 }
  | 2 => { viewMatrix := 1, _fov := 1, _nearClipPlane := 5, _farClipPlane := -1 }
  | _ => { viewMatrix := 1, _fov := 1, _nearClipPlane := -1, _farClipPlane := -1 }

/-- A sample environment: the colour macros read the bytes of an `0xAARRGGBB`
word, the default planes are 90 and 10000, every texture is 64x64 and named
after its pointer; the matrix helpers are simple stand-ins. -/
def sampleEnv : Env :=
  { DEFAULT_NEAR_PLANE := 90
    DEFAULT_FAR_PLANE := 10000
    RGBCOLGetA := fun c => ⟨c / 2 ^ 24 % 256, Nat.mod_lt _ (by norm_num)⟩
    RGBCOLGetR := fun c => ⟨c / 2 ^ 16 % 256, Nat.mod_lt _ (by norm_num)⟩
    RGBCOLGetG := fun c => ⟨c / 2 ^ 8 % 256, Nat.mod_lt _ (by norm_num)⟩
    RGBCOLGetB := fun c => ⟨c % 256, Nat.mod_lt _ (by norm_num)⟩
    DXMatrixPerspectiveFovLH := fun fov aspect zn zf =>
      Matrix.of fun i j =>
        if i = 0 ∧ j = 0 then 1 / (fov * aspect)
        else if i = 1 ∧ j = 1 then 1 / fov
        else if i = 2 ∧ j = 2 then zf / (zf - zn)
        else if i = 2 ∧ j = 3 then 1
        else if i = 3 ∧ j = 2 then -zn * zf / (zf - zn)
        else 0
    DXMatrixInverse := fun m => m
    build2dTransformation := fun _ _ => 1
    game := sampleGame
    cameras := sampleCameras
    textures := fun t => { textureName := t + 1, glTextureWidth := 64, glTextureHeight := 64 }
    projectionParams :=
      { resWidth := 800, resHeight := 600, layerWidth := 800, layerHeight := 600,
        modWidth := 0, modHeight := 0, customViewport := false } }

/-- A sample renderer right after construction of an 800x600 context: no mode
entered yet, no camera, nothing cached. -/
def sampleRenderer : BaseRenderOpenGL3DShader :=
  { _width := 800
    _height := 600
    _windowed := true
    _active := true
    _state := .RSTATE_NONE
    _camera := none
    _fov := 1
    _nearClipPlane := 0
    _farClipPlane := 0
    _viewMatrix := 1
    _projectionMatrix := 1
    _projectionMatrix2d := 1
    _worldMatrix := 1
    _transformStack := [1]
    _ambientLightColor := 0
    _ambientLightOverride := false
    _viewportRect := { left := 0, top := 0, right := 800, bottom := 600 }
    _viewport := { _x := 0, _y := 0, _width := 800, _height := 600 }
    _drawOffsetX := 0
    _drawOffsetY := 0
    _forceAlphaColor := 0
    _spriteBatchMode := false
    _batchTexture := none
    _batchAlphaDisable := false
    _batchBlendMode := .BLEND_UNKNOWN
    _lastTexture := none
    _blendMode := .BLEND_UNKNOWN
    _spriteVBO := 1
    _fadeVBO := 2
    _lineVBO := 3
    gl := GLState.initial }

/-- The sample renderer after a forced `setup2D`: a state in 2D mode. -/
def sampleRenderer2D : BaseRenderOpenGL3DShader :=
  (sampleRenderer.setup2D true).2

/-- The sample renderer after entering 3D mode with camera `0` under the grey ambient
light of `sampleEnv`: a state in 3D mode. -/
def sampleRenderer3D : BaseRenderOpenGL3DShader :=
  (sampleRenderer.setup3D sampleEnv (some 0) false).2

/-- The sample environment after the game changed its ambient light to opaque red
`0xFFFF0000`. -/
def sampleEnvRed : Env :=
  { sampleEnv with game := { sampleGame with ambientLightColor := 0xFFFF0000 } }

/-- A sample source rect: the 32x16 region at the top-left corner of a texture. -/
def sampleRect : Rect32 := { left := 0, top := 0, right := 32, bottom := 16 }

/-- A sample sprite position. -/
def samplePos : Vector2 := { x := 100, y := 50 }

/-- A sample pivot, the origin. -/
def sampleRot : Vector2 := { x := 0, y := 0 }

/-- A sample scale, one in both directions. -/
def sampleScale : Vector2 := { x := 1, y := 1 }

/-- The sample renderer after `setViewport(0, 100, 800, 500)`: an 800x400 viewport that
starts 100 rows below the top of the 800x600 frame. -/
def sampleRendererBand : BaseRenderOpenGL3DShader :=
  (sampleRenderer.setViewport 0 100 800 500).2

/-- The same 800x400 band as a `DXViewport`: `x = 0, y = 100, width = 800, height = 400`. -/
def sampleViewportBand : DXViewport :=
  { _x := 0, _y := 100, _width := 800, _height := 400 }

/-- Sample `drawSpriteEx` arguments: the sample rect at the sample position, unrotated,
unscaled, white, alpha test on, not mirrored, with the given blend mode. -/
def sampleSpriteArgs (blendMode : TSpriteBlendMode) : SpriteArgs :=
  { rect := sampleRect, pos := samplePos, rot := sampleRot, scale := sampleScale, angle := 0
    color := 0xFFFFFFFF, alphaDisable := false, blendMode := blendMode
    mirrorX := false, mirrorY := false }

/-- A frame as a game issues it: enter 2D, draw an additive sprite, enter 3D with camera
`0`, and return to 2D. -/
def sampleFrame : List RenderOp :=
  [.setup2D false, .drawSpriteEx (some 0) (sampleSpriteArgs .BLEND_ADDITIVE),
    .setup3D (some 0) false, .setup2D false]

/-! ## Theorems -/

namespace BaseRenderOpenGL3DShader

/-! ### Frame lemmas: what each call changes -/

/-- The effect of `glEnable` on each part of the context. -/
@[simp] theorem GL_glEnable_fields (g : GLState) (cap : GLCap) :
    (g.glEnable cap).enabled = (fun c => if c = cap then true else g.enabled c) ∧
      (g.glEnable cap).frontFace = g.frontFace ∧
      (g.glEnable cap).blendSrc = g.blendSrc ∧
      (g.glEnable cap).blendDst = g.blendDst ∧
      (g.glEnable cap).viewport = g.viewport ∧
      (g.glEnable cap).texture2D = g.texture2D ∧
      (g.glEnable cap).texParameter = g.texParameter ∧
      (g.glEnable cap).arrayBuffer = g.arrayBuffer ∧
      (g.glEnable cap).bufferData = g.bufferData ∧
      (g.glEnable cap).program = g.program ∧
      (g.glEnable cap).uniforms = g.uniforms ∧
      (g.glEnable cap).calls = (g.calls ++ [.enable cap]) :=
  ⟨rfl, rfl, rfl, rfl, rfl, rfl, rfl, rfl, rfl, rfl, rfl, rfl⟩

/-- The effect of `glDisable` on each part of the context. -/
@[simp] theorem GL_glDisable_fields (g : GLState) (cap : GLCap) :
    (g.glDisable cap).enabled = (fun c => if c = cap then false else g.enabled c) ∧
      (g.glDisable cap).frontFace = g.frontFace ∧
      (g.glDisable cap).blendSrc = g.blendSrc ∧
      (g.glDisable cap).blendDst = g.blendDst ∧
      (g.glDisable cap).viewport = g.viewport ∧
      (g.glDisable cap).texture2D = g.texture2D ∧
      (g.glDisable cap).texParameter = g.texParameter ∧
      (g.glDisable cap).arrayBuffer = g.arrayBuffer ∧
      (g.glDisable cap).bufferData = g.bufferData ∧
      (g.glDisable cap).program = g.program ∧
      (g.glDisable cap).uniforms = g.uniforms ∧
      (g.glDisable cap).calls = (g.calls ++ [.disable cap]) :=
  ⟨rfl, rfl, rfl, rfl, rfl, rfl, rfl, rfl, rfl, rfl, rfl, rfl⟩

/-- The effect of `glFrontFace` on each part of the context. -/
@[simp] theorem GL_glFrontFace_fields (g : GLState) (mode : GLWinding) :
    (g.glFrontFace mode).enabled = g.enabled ∧
      (g.glFrontFace mode).frontFace = mode ∧
      (g.glFrontFace mode).blendSrc = g.blendSrc ∧
      (g.glFrontFace mode).blendDst = g.blendDst ∧
      (g.glFrontFace mode).viewport = g.viewport ∧
      (g.glFrontFace mode).texture2D = g.texture2D ∧
      (g.glFrontFace mode).texParameter = g.texParameter ∧
      (g.glFrontFace mode).arrayBuffer = g.arrayBuffer ∧
      (g.glFrontFace mode).bufferData = g.bufferData ∧
      (g.glFrontFace mode).program = g.program ∧
      (g.glFrontFace mode).uniforms = g.uniforms ∧
      (g.glFrontFace mode).calls = (g.calls ++ [.frontFace mode]) :=
  ⟨rfl, rfl, rfl, rfl, rfl, rfl, rfl, rfl, rfl, rfl, rfl, rfl⟩

/-- The effect of `glBlendFunc` on each part of the context. -/
@[simp] theorem GL_glBlendFunc_fields (g : GLState) (sfactor dfactor : GLFactor) :
    (g.glBlendFunc sfactor dfactor).enabled = g.enabled ∧
      (g.glBlendFunc sfactor dfactor).frontFace = g.frontFace ∧
      (g.glBlendFunc sfactor dfactor).blendSrc = sfactor ∧
      (g.glBlendFunc sfactor dfactor).blendDst = dfactor ∧
      (g.glBlendFunc sfactor dfactor).viewport = g.viewport ∧
      (g.glBlendFunc sfactor dfactor).texture2D = g.texture2D ∧
      (g.glBlendFunc sfactor dfactor).texParameter = g.texParameter ∧
      (g.glBlendFunc sfactor dfactor).arrayBuffer = g.arrayBuffer ∧
      (g.glBlendFunc sfactor dfactor).bufferData = g.bufferData ∧
      (g.glBlendFunc sfactor dfactor).program = g.program ∧
      (g.glBlendFunc sfactor dfactor).uniforms = g.uniforms ∧
      (g.glBlendFunc sfactor dfactor).calls = (g.calls ++ [.blendFunc sfactor dfactor]) :=
  ⟨rfl, rfl, rfl, rfl, rfl, rfl, rfl, rfl, rfl, rfl, rfl, rfl⟩

/-- The effect of `glViewport` on each part of the context. -/
@[simp] theorem GL_glViewport_fields (g : GLState) (x y width height : Int) :
    (g.glViewport x y width height).enabled = g.enabled ∧
      (g.glViewport x y width height).frontFace = g.frontFace ∧
      (g.glViewport x y width height).blendSrc = g.blendSrc ∧
      (g.glViewport x y width height).blendDst = g.blendDst ∧
      (g.glViewport x y width height).viewport = (x, y, width, height) ∧
      (g.glViewport x y width height).texture2D = g.texture2D ∧
      (g.glViewport x y width height).texParameter = g.texParameter ∧
      (g.glViewport x y width height).arrayBuffer = g.arrayBuffer ∧
      (g.glViewport x y width height).bufferData = g.bufferData ∧
      (g.glViewport x y width height).program = g.program ∧
      (g.glViewport x y width height).uniforms = g.uniforms ∧
      (g.glViewport x y width height).calls = (g.calls ++ [.viewport x y width height]) :=
  ⟨rfl, rfl, rfl, rfl, rfl, rfl, rfl, rfl, rfl, rfl, rfl, rfl⟩

/-- The effect of `glBindTexture` on each part of the context. -/
@[simp] theorem GL_glBindTexture_fields (g : GLState) (texture : Nat) :
    (g.glBindTexture texture).enabled = g.enabled ∧
      (g.glBindTexture texture).frontFace = g.frontFace ∧
      (g.glBindTexture texture).blendSrc = g.blendSrc ∧
      (g.glBindTexture texture).blendDst = g.blendDst ∧
      (g.glBindTexture texture).viewport = g.viewport ∧
      (g.glBindTexture texture).texture2D = texture ∧
      (g.glBindTexture texture).texParameter = g.texParameter ∧
      (g.glBindTexture texture).arrayBuffer = g.arrayBuffer ∧
      (g.glBindTexture texture).bufferData = g.bufferData ∧
      (g.glBindTexture texture).program = g.program ∧
      (g.glBindTexture texture).uniforms = g.uniforms ∧
      (g.glBindTexture texture).calls = (g.calls ++ [.bindTexture texture]) :=
  ⟨rfl, rfl, rfl, rfl, rfl, rfl, rfl, rfl, rfl, rfl, rfl, rfl⟩

/-- The effect of `glTexParameteri` on each part of the context. -/
@[simp] theorem GL_glTexParameteri_fields (g : GLState) (pname : GLTexParam) (param : GLWrap) :
    (g.glTexParameteri pname param).enabled = g.enabled ∧
      (g.glTexParameteri pname param).frontFace = g.frontFace ∧
      (g.glTexParameteri pname param).blendSrc = g.blendSrc ∧
      (g.glTexParameteri pname param).blendDst = g.blendDst ∧
      (g.glTexParameteri pname param).viewport = g.viewport ∧
      (g.glTexParameteri pname param).texture2D = g.texture2D ∧
      (g.glTexParameteri pname param).texParameter = (fun t p => if t = g.texture2D ∧ p = pname then param else g.texParameter t p) ∧
      (g.glTexParameteri pname param).arrayBuffer = g.arrayBuffer ∧
      (g.glTexParameteri pname param).bufferData = g.bufferData ∧
      (g.glTexParameteri pname param).program = g.program ∧
      (g.glTexParameteri pname param).uniforms = g.uniforms ∧
      (g.glTexParameteri pname param).calls = (g.calls ++ [.texParameteri pname param]) :=
  ⟨rfl, rfl, rfl, rfl, rfl, rfl, rfl, rfl, rfl, rfl, rfl, rfl⟩

/-- The effect of `glBindBuffer` on each part of the context. -/
@[simp] theorem GL_glBindBuffer_fields (g : GLState) (buffer : Nat) :
    (g.glBindBuffer buffer).enabled = g.enabled ∧
      (g.glBindBuffer buffer).frontFace = g.frontFace ∧
      (g.glBindBuffer buffer).blendSrc = g.blendSrc ∧
      (g.glBindBuffer buffer).blendDst = g.blendDst ∧
      (g.glBindBuffer buffer).viewport = g.viewport ∧
      (g.glBindBuffer buffer).texture2D = g.texture2D ∧
      (g.glBindBuffer buffer).texParameter = g.texParameter ∧
      (g.glBindBuffer buffer).arrayBuffer = buffer ∧
      (g.glBindBuffer buffer).bufferData = g.bufferData ∧
      (g.glBindBuffer buffer).program = g.program ∧
      (g.glBindBuffer buffer).uniforms = g.uniforms ∧
      (g.glBindBuffer buffer).calls = (g.calls ++ [.bindBuffer buffer]) :=
  ⟨rfl, rfl, rfl, rfl, rfl, rfl, rfl, rfl, rfl, rfl, rfl, rfl⟩

/-- The effect of `glBufferSubData` on each part of the context. -/
@[simp] theorem GL_glBufferSubData_fields (g : GLState) (data : BufferData) :
    (g.glBufferSubData data).enabled = g.enabled ∧
      (g.glBufferSubData data).frontFace = g.frontFace ∧
      (g.glBufferSubData data).blendSrc = g.blendSrc ∧
      (g.glBufferSubData data).blendDst = g.blendDst ∧
      (g.glBufferSubData data).viewport = g.viewport ∧
      (g.glBufferSubData data).texture2D = g.texture2D ∧
      (g.glBufferSubData data).texParameter = g.texParameter ∧
      (g.glBufferSubData data).arrayBuffer = g.arrayBuffer ∧
      (g.glBufferSubData data).bufferData = (fun b => if b = g.arrayBuffer then data else g.bufferData b) ∧
      (g.glBufferSubData data).program = g.program ∧
      (g.glBufferSubData data).uniforms = g.uniforms ∧
      (g.glBufferSubData data).calls = (g.calls ++ [.bufferSubData data]) :=
  ⟨rfl, rfl, rfl, rfl, rfl, rfl, rfl, rfl, rfl, rfl, rfl, rfl⟩

/-- The effect of `glDrawArrays` on each part of the context. -/
@[simp] theorem GL_glDrawArrays_fields (g : GLState) (mode : GLPrimitive) (first count : Int) :
    (g.glDrawArrays mode first count).enabled = g.enabled ∧
      (g.glDrawArrays mode first count).frontFace = g.frontFace ∧
      (g.glDrawArrays mode first count).blendSrc = g.blendSrc ∧
      (g.glDrawArrays mode first count).blendDst = g.blendDst ∧
      (g.glDrawArrays mode first count).viewport = g.viewport ∧
      (g.glDrawArrays mode first count).texture2D = g.texture2D ∧
      (g.glDrawArrays mode first count).texParameter = g.texParameter ∧
      (g.glDrawArrays mode first count).arrayBuffer = g.arrayBuffer ∧
      (g.glDrawArrays mode first count).bufferData = g.bufferData ∧
      (g.glDrawArrays mode first count).program = g.program ∧
      (g.glDrawArrays mode first count).uniforms = g.uniforms ∧
      (g.glDrawArrays mode first count).calls = (g.calls ++ [.drawArrays mode first count]) :=
  ⟨rfl, rfl, rfl, rfl, rfl, rfl, rfl, rfl, rfl, rfl, rfl, rfl⟩

/-- The effect of `glReadPixels` on each part of the context. -/
@[simp] theorem GL_glReadPixels_fields (g : GLState) (x y width height : Int) :
    (g.glReadPixels x y width height).enabled = g.enabled ∧
      (g.glReadPixels x y width height).frontFace = g.frontFace ∧
      (g.glReadPixels x y width height).blendSrc = g.blendSrc ∧
      (g.glReadPixels x y width height).blendDst = g.blendDst ∧
      (g.glReadPixels x y width height).viewport = g.viewport ∧
      (g.glReadPixels x y width height).texture2D = g.texture2D ∧
      (g.glReadPixels x y width height).texParameter = g.texParameter ∧
      (g.glReadPixels x y width height).arrayBuffer = g.arrayBuffer ∧
      (g.glReadPixels x y width height).bufferData = g.bufferData ∧
      (g.glReadPixels x y width height).program = g.program ∧
      (g.glReadPixels x y width height).uniforms = g.uniforms ∧
      (g.glReadPixels x y width height).calls = (g.calls ++ [.readPixels x y width height]) :=
  ⟨rfl, rfl, rfl, rfl, rfl, rfl, rfl, rfl, rfl, rfl, rfl, rfl⟩

/-- The effect of `use` on each part of the context. -/
@[simp] theorem GL_use_fields (g : GLState) (p : ShaderProgram) :
    (g.use p).enabled = g.enabled ∧
      (g.use p).frontFace = g.frontFace ∧
      (g.use p).blendSrc = g.blendSrc ∧
      (g.use p).blendDst = g.blendDst ∧
      (g.use p).viewport = g.viewport ∧
      (g.use p).texture2D = g.texture2D ∧
      (g.use p).texParameter = g.texParameter ∧
      (g.use p).arrayBuffer = g.arrayBuffer ∧
      (g.use p).bufferData = g.bufferData ∧
      (g.use p).program = (some p) ∧
      (g.use p).uniforms = g.uniforms ∧
      (g.use p).calls = (g.calls ++ [.useProgram p]) :=
  ⟨rfl, rfl, rfl, rfl, rfl, rfl, rfl, rfl, rfl, rfl, rfl, rfl⟩

/-- The effect of `setUniform` on each part of the context. -/
@[simp] theorem GL_setUniform_fields (g : GLState) (p : ShaderProgram) (name : UniformName) (value : UniformValue) :
    (g.setUniform p name value).enabled = g.enabled ∧
      (g.setUniform p name value).frontFace = g.frontFace ∧
      (g.setUniform p name value).blendSrc = g.blendSrc ∧
      (g.setUniform p name value).blendDst = g.blendDst ∧
      (g.setUniform p name value).viewport = g.viewport ∧
      (g.setUniform p name value).texture2D = g.texture2D ∧
      (g.setUniform p name value).texParameter = g.texParameter ∧
      (g.setUniform p name value).arrayBuffer = g.arrayBuffer ∧
      (g.setUniform p name value).bufferData = g.bufferData ∧
      (g.setUniform p name value).program = g.program ∧
      (g.setUniform p name value).uniforms = (fun q n => if q = p ∧ n = name then some value else g.uniforms q n) ∧
      (g.setUniform p name value).calls = (g.calls ++ [.setUniform p name value]) :=
  ⟨rfl, rfl, rfl, rfl, rfl, rfl, rfl, rfl, rfl, rfl, rfl, rfl⟩

/-- The effect of `meshRender` on each part of the context. -/
@[simp] theorem GL_meshRender_fields (g : GLState) (mesh : Nat) :
    (g.meshRender mesh).enabled = g.enabled ∧
      (g.meshRender mesh).frontFace = g.frontFace ∧
      (g.meshRender mesh).blendSrc = g.blendSrc ∧
      (g.meshRender mesh).blendDst = g.blendDst ∧
      (g.meshRender mesh).viewport = g.viewport ∧
      (g.meshRender mesh).texture2D = g.texture2D ∧
      (g.meshRender mesh).texParameter = g.texParameter ∧
      (g.meshRender mesh).arrayBuffer = g.arrayBuffer ∧
      (g.meshRender mesh).bufferData = g.bufferData ∧
      (g.meshRender mesh).program = g.program ∧
      (g.meshRender mesh).uniforms = g.uniforms ∧
      (g.meshRender mesh).calls = (g.calls ++ [.meshRender mesh]) :=
  ⟨rfl, rfl, rfl, rfl, rfl, rfl, rfl, rfl, rfl, rfl, rfl, rfl⟩

/-! ### Frame lemmas: the renderer members -/

/-- A graphics-context call changes the context only. -/
@[simp] theorem onGL_fields (r : BaseRenderOpenGL3DShader) (f : GLState → GLState) :
    (r.onGL f).gl = f r.gl ∧
      (r.onGL f)._width = r._width ∧
      (r.onGL f)._height = r._height ∧
      (r.onGL f)._windowed = r._windowed ∧
      (r.onGL f)._active = r._active ∧
      (r.onGL f)._state = r._state ∧
      (r.onGL f)._camera = r._camera ∧
      (r.onGL f)._fov = r._fov ∧
      (r.onGL f)._nearClipPlane = r._nearClipPlane ∧
      (r.onGL f)._farClipPlane = r._farClipPlane ∧
      (r.onGL f)._viewMatrix = r._viewMatrix ∧
      (r.onGL f)._projectionMatrix = r._projectionMatrix ∧
      (r.onGL f)._projectionMatrix2d = r._projectionMatrix2d ∧
      (r.onGL f)._worldMatrix = r._worldMatrix ∧
      (r.onGL f)._transformStack = r._transformStack ∧
      (r.onGL f)._ambientLightColor = r._ambientLightColor ∧
      (r.onGL f)._ambientLightOverride = r._ambientLightOverride ∧
      (r.onGL f)._viewportRect = r._viewportRect ∧
      (r.onGL f)._viewport = r._viewport ∧
      (r.onGL f)._drawOffsetX = r._drawOffsetX ∧
      (r.onGL f)._drawOffsetY = r._drawOffsetY ∧
      (r.onGL f)._forceAlphaColor = r._forceAlphaColor ∧
      (r.onGL f)._spriteBatchMode = r._spriteBatchMode ∧
      (r.onGL f)._batchTexture = r._batchTexture ∧
      (r.onGL f)._batchAlphaDisable = r._batchAlphaDisable ∧
      (r.onGL f)._batchBlendMode = r._batchBlendMode ∧
      (r.onGL f)._lastTexture = r._lastTexture ∧
      (r.onGL f)._blendMode = r._blendMode ∧
      (r.onGL f)._spriteVBO = r._spriteVBO ∧
      (r.onGL f)._fadeVBO = r._fadeVBO ∧
      (r.onGL f)._lineVBO = r._lineVBO :=
  ⟨rfl, rfl, rfl, rfl, rfl, rfl, rfl, rfl, rfl, rfl, rfl, rfl, rfl, rfl, rfl, rfl, rfl, rfl, rfl, rfl, rfl, rfl, rfl, rfl, rfl, rfl, rfl, rfl, rfl, rfl, rfl⟩

/-- The clip planes and the camera pointer after the mode-entry part of `setup3D`, in terms
of the camera in effect. -/
theorem enter3D_planes (env : Env) (r : BaseRenderOpenGL3DShader) (camera : Option Nat) :
    (r.enter3D env camera)._nearClipPlane =
        (match (if camera.isSome then camera else r._camera) with
         | some c =>
           if (env.cameras c)._nearClipPlane ≥ 0 then (env.cameras c)._nearClipPlane
           else env.DEFAULT_NEAR_PLANE
         | none => env.DEFAULT_NEAR_PLANE) ∧
      (r.enter3D env camera)._farClipPlane =
        (match (if camera.isSome then camera else r._camera) with
         | some c =>
           if (env.cameras c)._farClipPlane ≥ 0 then (env.cameras c)._farClipPlane
           else env.DEFAULT_FAR_PLANE
         | none => env.DEFAULT_FAR_PLANE) := by
  cases camera with
  | some c =>
    simp only [enter3D, resolveCamera, setProjection, setProjectionTransform, setViewTransform,
      setAmbientLightRenderState, onGL, Option.isSome_some, if_true]
    constructor <;> split_ifs <;> rfl
  | none =>
    cases hc : r._camera with
    | some c =>
      simp only [enter3D, resolveCamera, setProjection, setProjectionTransform, setViewTransform,
        setAmbientLightRenderState, onGL, Option.isSome_none, Bool.false_eq_true, if_false, hc]
      constructor <;> split_ifs <;> rfl
    | none =>
      simp [enter3D, resolveCamera, setProjection, setProjectionTransform, setViewTransform,
        setAmbientLightRenderState, onGL, hc]

/-- Whether `setup3D` runs its mode-entry part. -/
theorem setup3D_of_enter (env : Env) (r : BaseRenderOpenGL3DShader) (camera : Option Nat)
    (force : Bool) (hEnter : r._state ≠ .RSTATE_3D ∨ force = true) :
    (r.setup3D env camera force).2._nearClipPlane = (r.enter3D env camera)._nearClipPlane ∧
      (r.setup3D env camera force).2._farClipPlane = (r.enter3D env camera)._farClipPlane := by
  have hc : (decide (r._state ≠ .RSTATE_3D) || force) = true := by
    rcases hEnter with h | h
    · simp [h]
    · simp [h]
  simp only [setup3D, hc, if_true, onGL_fields, and_self]

/-! ### C1: clip planes on entering 3D mode -/

/-- C1: whenever `setup3D(camera, force)` enters the mode (the state is not yet 3D, or
`force` is set), the near and the far clip plane are resolved independently from the
camera in effect (the supplied camera when non-null, else the stored one): the camera's
plane when it is `>= 0`, the default otherwise; with no camera in effect both planes
are the defaults. -/
theorem setup3D_resolves_clip_planes (env : Env) (r : BaseRenderOpenGL3DShader)
    (camera : Option Nat) (force : Bool)
    (hEnter : r._state ≠ .RSTATE_3D ∨ force = true) :
    (r.setup3D env camera force).2._nearClipPlane =
        (match (if camera.isSome then camera else r._camera) with
         | some c =>
           if (env.cameras c)._nearClipPlane ≥ 0 then (env.cameras c)._nearClipPlane
           else env.DEFAULT_NEAR_PLANE
         | none => env.DEFAULT_NEAR_PLANE) ∧
      (r.setup3D env camera force).2._farClipPlane =
        (match (if camera.isSome then camera else r._camera) with
         | some c =>
           if (env.cameras c)._farClipPlane ≥ 0 then (env.cameras c)._farClipPlane
           else env.DEFAULT_FAR_PLANE
         | none => env.DEFAULT_FAR_PLANE) := by
  obtain ⟨hn, hf⟩ := setup3D_of_enter env r camera force hEnter
  obtain ⟨hn2, hf2⟩ := enter3D_planes env r camera
  exact ⟨hn.trans hn2, hf.trans hf2⟩

/-- C1 at a concrete input: entering 3D from the fresh renderer with camera `1` (near
plane unset, far plane 2000) gives the default near plane 90 and the camera's far plane. -/
theorem setup3D_resolves_clip_planes_witness :
    (sampleRenderer._state ≠ .RSTATE_3D ∨ false = true) ∧
      (sampleRenderer.setup3D sampleEnv (some 1) false).2._nearClipPlane = 90 ∧
      (sampleRenderer.setup3D sampleEnv (some 1) false).2._farClipPlane = 2000 := by
  have h := setup3D_resolves_clip_planes sampleEnv sampleRenderer (some 1) false
    (Or.inl (by decide))
  refine ⟨Or.inl (by decide), ?_, ?_⟩
  · rw [h.1]; norm_num [sampleEnv, sampleCameras]
  · rw [h.2]; norm_num [sampleEnv, sampleCameras]

/-! ### C2: re-entering the current mode keeps the pipeline flags -/

/-- Re-entering 3D mode without `force`: the renderer changes only in the current
program, the uniform table and the call trace of its graphics context. -/
theorem setup3D_reentry_frame (env : Env) (r : BaseRenderOpenGL3DShader)
    (camera : Option Nat) (h3D : r._state = .RSTATE_3D) :
    (r.setup3D env camera false).2 =
      { r with gl := { r.gl with
          program := (r.setup3D env camera false).2.gl.program
          uniforms := (r.setup3D env camera false).2.gl.uniforms
          calls := (r.setup3D env camera false).2.gl.calls } } := by
  simp [setup3D, h3D, onGL, GLState.use, GLState.setUniform, GLState.issue]

/-- Re-entering 2D mode without `force` changes nothing at all. -/
theorem setup2D_reentry_frame (r : BaseRenderOpenGL3DShader) (h2D : r._state = .RSTATE_2D) :
    r.setup2D false = (true, r) := by
  simp [setup2D, h2D]

/-- C2: in a state whose mode is 2D, `setup2D(false)` leaves the depth-test, stencil-test,
cull-face, front-face, blend-enable and blend-function flags unchanged (indeed the whole
renderer); in a state whose mode is 3D, `setup3D(camera, false)` leaves those flags
unchanged for every camera, and changes nothing but the current program, the shader
uniforms and the call trace. -/
theorem setup_reentry_keeps_pipeline_flags (env : Env) (r : BaseRenderOpenGL3DShader)
    (camera : Option Nat) :
    (r._state = .RSTATE_2D →
        pipelineFlags (r.setup2D false).2.gl = pipelineFlags r.gl ∧
        (r.setup2D false).2 = r) ∧
      (r._state = .RSTATE_3D →
        pipelineFlags (r.setup3D env camera false).2.gl = pipelineFlags r.gl ∧
        (r.setup3D env camera false).2 =
          { r with gl := { r.gl with
              program := (r.setup3D env camera false).2.gl.program
              uniforms := (r.setup3D env camera false).2.gl.uniforms
              calls := (r.setup3D env camera false).2.gl.calls } }) := by
  refine ⟨fun h2D => ?_, fun h3D => ?_⟩
  · rw [setup2D_reentry_frame r h2D]
    exact ⟨rfl, rfl⟩
  · have hframe := setup3D_reentry_frame env r camera h3D
    refine ⟨?_, hframe⟩
    rw [hframe]
    rfl

/-- C2 at concrete inputs: the 2D sample state and the 3D sample state (with camera `1`)
satisfy the mode hypotheses and keep their flags. -/
theorem setup_reentry_keeps_pipeline_flags_witness :
    (sampleRenderer2D._state = .RSTATE_2D ∧
        pipelineFlags (sampleRenderer2D.setup2D false).2.gl = pipelineFlags sampleRenderer2D.gl) ∧
      (sampleRenderer3D._state = .RSTATE_3D ∧
        pipelineFlags (sampleRenderer3D.setup3D sampleEnv (some 1) false).2.gl =
          pipelineFlags sampleRenderer3D.gl) :=
  ⟨⟨rfl, ((setup_reentry_keeps_pipeline_flags sampleEnv sampleRenderer2D none).1 rfl).1⟩,
    ⟨rfl, ((setup_reentry_keeps_pipeline_flags sampleEnv sampleRenderer3D (some 1)).2 rfl).1⟩⟩

/-! ### C3: the ambient light is applied on mode entry only -/

/-- The method `setAmbientLightRenderState` uploads the current ambient colour. -/
theorem setAmbientLightRenderState_uniform (env : Env) (r : BaseRenderOpenGL3DShader) :
    ambientLightUniform (r.setAmbientLightRenderState env) =
      some (.vec4 (currentAmbientLight env r)) := by
  cases ho : r._ambientLightOverride <;>
    simp [ambientLightUniform, setAmbientLightRenderState, currentAmbientLight, onGL,
      GLState.use, GLState.setUniform, GLState.issue, ho]

/-- The mode-entry part of `setup3D` leaves the model shader's `ambientLight` uniform at
the current ambient colour. -/
theorem enter3D_ambient (env : Env) (r : BaseRenderOpenGL3DShader) (camera : Option Nat) :
    ambientLightUniform (r.enter3D env camera) = some (.vec4 (currentAmbientLight env r)) := by
  have h := setAmbientLightRenderState_uniform env r
  have key : ambientLightUniform (r.enter3D env camera) =
      ambientLightUniform (r.setAmbientLightRenderState env) := by
    cases camera <;> cases hc : r._camera <;>
      simp [ambientLightUniform, enter3D, resolveCamera, setProjection, setProjectionTransform,
        setViewTransform, setAmbientLightRenderState, onGL, GLState.use, GLState.setUniform,
        GLState.issue, GLState.glEnable, GLState.glViewport, hc] <;>
      split_ifs <;> rfl
  rw [key, h]

/-- The uniform uploads that end `setup3D` do not touch `ambientLight`, nor the two
members the current ambient colour is read from. -/
theorem setup3D_ambient_of_enter (env : Env) (r : BaseRenderOpenGL3DShader)
    (camera : Option Nat) (force : Bool) (hEnter : r._state ≠ .RSTATE_3D ∨ force = true) :
    ambientLightUniform (r.setup3D env camera force).2 =
      ambientLightUniform (r.enter3D env camera) := by
  have hc : (decide (r._state ≠ .RSTATE_3D) || force) = true := by
    rcases hEnter with h | h
    · simp [h]
    · simp [h]
  simp only [setup3D, hc, if_true]
  simp [ambientLightUniform, onGL, GLState.use, GLState.setUniform, GLState.issue]

/-- The mode-entry part of `setup3D` keeps the ambient override flag. -/
theorem enter3D_ambientLightOverride (env : Env) (r : BaseRenderOpenGL3DShader)
    (camera : Option Nat) :
    (r.enter3D env camera)._ambientLightOverride = r._ambientLightOverride := by
  unfold enter3D
  simp only [resolveCamera, setProjection, setProjectionTransform, setViewTransform,
    setAmbientLightRenderState, onGL]
  split <;> split_ifs <;> rfl

/-- The mode-entry part of `setup3D` keeps the ambient override colour. -/
theorem enter3D_ambientLightColor (env : Env) (r : BaseRenderOpenGL3DShader)
    (camera : Option Nat) :
    (r.enter3D env camera)._ambientLightColor = r._ambientLightColor := by
  unfold enter3D
  simp only [resolveCamera, setProjection, setProjectionTransform, setViewTransform,
    setAmbientLightRenderState, onGL]
  split <;> split_ifs <;> rfl

/-- The method `setup3D` never changes the ambient override flag, the override colour. -/
theorem setup3D_currentAmbientLight (env env2 : Env) (r : BaseRenderOpenGL3DShader)
    (camera : Option Nat) (force : Bool) :
    currentAmbientLight env2 (r.setup3D env camera force).2 = currentAmbientLight env2 r := by
  have h1 : (r.setup3D env camera force).2._ambientLightOverride = r._ambientLightOverride := by
    simp only [setup3D, onGL_fields]
    split_ifs
    · exact enter3D_ambientLightOverride env r camera
    · rfl
  have h2 : (r.setup3D env camera force).2._ambientLightColor = r._ambientLightColor := by
    simp only [setup3D, onGL_fields]
    split_ifs
    · exact enter3D_ambientLightColor env r camera
    · rfl
  simp only [currentAmbientLight, h1, h2]

/-- C3, as the code has it: re-entering 3D mode without `force` leaves the model shader's
`ambientLight` uniform exactly as it was (the ambient light is not re-applied); whenever
`setup3D` enters the mode (state not yet 3D, or `force` set) the uniform afterwards is the
current ambient colour, the override colour when the override is on and the game's colour
otherwise, with channels `(R/255, G/255, B/255, A/255)`. -/
theorem setup3D_ambient_on_entry_only (env : Env) (r : BaseRenderOpenGL3DShader)
    (camera : Option Nat) (force : Bool) :
    (r._state = .RSTATE_3D →
        ambientLightUniform (r.setup3D env camera false).2 = ambientLightUniform r) ∧
      (r._state ≠ .RSTATE_3D ∨ force = true →
        ambientLightUniform (r.setup3D env camera force).2 =
          some (.vec4 (currentAmbientLight env (r.setup3D env camera force).2))) := by
  refine ⟨fun h3D => ?_, fun hEnter => ?_⟩
  · rw [setup3D_reentry_frame env r camera h3D]
    simp [ambientLightUniform, setup3D, h3D, onGL, GLState.use, GLState.setUniform,
      GLState.issue]
  · rw [setup3D_ambient_of_enter env r camera force hEnter, enter3D_ambient,
      setup3D_currentAmbientLight]

/-- C3 at concrete inputs: the 3D sample state keeps its uniform on re-entry under the red
ambient light, and the fresh sample state gets the grey ambient colour on entry. -/
theorem setup3D_ambient_on_entry_only_witness :
    (sampleRenderer3D._state = .RSTATE_3D ∧
        ambientLightUniform (sampleRenderer3D.setup3D sampleEnvRed (some 0) false).2 =
          ambientLightUniform sampleRenderer3D) ∧
      ((sampleRenderer._state ≠ .RSTATE_3D ∨ false = true) ∧
        ambientLightUniform (sampleRenderer.setup3D sampleEnv (some 0) false).2 =
          some (.vec4 (currentAmbientLight sampleEnv
            (sampleRenderer.setup3D sampleEnv (some 0) false).2))) :=
  ⟨⟨rfl, (setup3D_ambient_on_entry_only sampleEnvRed sampleRenderer3D (some 0) false).1 rfl⟩,
    ⟨Or.inl (by decide),
      (setup3D_ambient_on_entry_only sampleEnv sampleRenderer (some 0) false).2
        (Or.inl (by decide))⟩⟩

/-- C3 refuted as stated: the sample state entered 3D mode under the grey ambient light
`0xFF808080`; the game then switches to red `0xFFFF0000`; after `setup3D(camera, false)`
the `ambientLight` uniform still holds the grey `(128/255, 128/255, 128/255, 1)`, not the
current colour `(1, 0, 0, 1)`. -/
theorem setup3D_reentry_ambient_counterexample :
    sampleRenderer3D._state = .RSTATE_3D ∧
      ambientLightUniform (sampleRenderer3D.setup3D sampleEnvRed (some 0) false).2 =
        some (.vec4 { x := 128 / 255, y := 128 / 255, z := 128 / 255, w := 1 }) ∧
      currentAmbientLight sampleEnvRed (sampleRenderer3D.setup3D sampleEnvRed (some 0) false).2 =
        { x := 1, y := 0, z := 0, w := 1 } ∧
      ambientLightUniform (sampleRenderer3D.setup3D sampleEnvRed (some 0) false).2 ≠
        some (.vec4 (currentAmbientLight sampleEnvRed
          (sampleRenderer3D.setup3D sampleEnvRed (some 0) false).2)) := by
  have hkeep : ambientLightUniform (sampleRenderer3D.setup3D sampleEnvRed (some 0) false).2 =
      ambientLightUniform sampleRenderer3D := by
    simp [ambientLightUniform, setup3D, show sampleRenderer3D._state = .RSTATE_3D from rfl,
      onGL, GLState.use, GLState.setUniform, GLState.issue]
  have hgrey : ambientLightUniform sampleRenderer3D =
      some (.vec4 { x := 128 / 255, y := 128 / 255, z := 128 / 255, w := 1 }) := by
    have hs : (sampleRenderer._state ≠ .RSTATE_3D ∨ false = true) := Or.inl (by decide)
    rw [sampleRenderer3D, setup3D_ambient_of_enter sampleEnv sampleRenderer (some 0) false hs,
      enter3D_ambient]
    norm_num [currentAmbientLight, sampleRenderer, sampleEnv, sampleGame]
  have hred : currentAmbientLight sampleEnvRed
      (sampleRenderer3D.setup3D sampleEnvRed (some 0) false).2 =
      { x := 1, y := 0, z := 0, w := 1 } := by
    rw [setup3D_currentAmbientLight, sampleRenderer3D, setup3D_currentAmbientLight]
    norm_num [currentAmbientLight, sampleRenderer, sampleEnvRed, sampleEnv, sampleGame]
  refine ⟨rfl, hkeep.trans hgrey, hred, ?_⟩
  rw [hkeep, hgrey, hred]
  norm_num

/-! ### C4: `setViewport` -/

/-- On the values of a 32-bit `int`, 32-bit arithmetic is exact. -/
theorem wrapInt32_of_isInt32 (x : Int) (hx : isInt32 x) : wrapInt32 x = x := by
  obtain ⟨h1, h2⟩ := hx
  unfold wrapInt32
  omega

/-- Conversion to `uint32` keeps a non-negative 32-bit `int`. -/
theorem toUInt32_of_nonneg (x : Int) (hx : isInt32 x) (h0 : 0 ≤ x) :
    ((toUInt32 x : Nat) : Int) = x := by
  obtain ⟨h1, h2⟩ := hx
  unfold toUInt32
  omega

/-- C4, as the code has it: for every frame height `_height` and all 32-bit integers
`left, top, right, bottom` for which `right - left`, `bottom - top` and `_height - bottom`
do not overflow, `setViewport` returns true, stores the rect `(left, top, right, bottom)`,
makes exactly one GL call, `glViewport(left, _height - bottom, right - left, bottom - top)`,
which becomes the GPU viewport, and stores in the unsigned members of the viewport the values
`left`, `top`, `right - left`, `bottom - top` reduced modulo `2^32`, so that
`x = left`, `y = top`, `width = right - left`, `height = bottom - top` whenever the value is
not negative; no other member changes. -/
theorem setViewport_in_range (r : BaseRenderOpenGL3DShader) (left top right bottom : Int)
    (hLeft : isInt32 left) (hTop : isInt32 top) (hRight : isInt32 right)
    (hBottom : isInt32 bottom) (hFrame : isInt32 r._height)
    (hWidth : isInt32 (right - left)) (hHeight : isInt32 (bottom - top))
    (hRow : isInt32 (r._height - bottom)) :
    (r.setViewport left top right bottom).1 = true ∧
      (r.setViewport left top right bottom).2._viewportRect =
        { left := left, top := top, right := right, bottom := bottom } ∧
      (r.setViewport left top right bottom).2._viewport =
        { _x := toUInt32 left, _y := toUInt32 top, _width := toUInt32 (right - left),
          _height := toUInt32 (bottom - top) } ∧
      (0 ≤ left → ((r.setViewport left top right bottom).2._viewport._x : Int) = left) ∧
      (0 ≤ top → ((r.setViewport left top right bottom).2._viewport._y : Int) = top) ∧
      (0 ≤ right - left →
        ((r.setViewport left top right bottom).2._viewport._width : Int) = right - left) ∧
      (0 ≤ bottom - top →
        ((r.setViewport left top right bottom).2._viewport._height : Int) = bottom - top) ∧
      (r.setViewport left top right bottom).2.gl.calls =
        r.gl.calls ++ [.viewport left (r._height - bottom) (right - left) (bottom - top)] ∧
      (r.setViewport left top right bottom).2.gl.viewport =
        (left, r._height - bottom, right - left, bottom - top) ∧
      (r.setViewport left top right bottom).2 =
        { r with
          _viewportRect := { left := left, top := top, right := right, bottom := bottom }
          _viewport :=
            { _x := toUInt32 left, _y := toUInt32 top, _width := toUInt32 (right - left),
              _height := toUInt32 (bottom - top) }
          gl := r.gl.glViewport left (r._height - bottom) (right - left) (bottom - top) } := by
  have hw := wrapInt32_of_isInt32 _ hWidth
  have hh := wrapInt32_of_isInt32 _ hHeight
  have hr := wrapInt32_of_isInt32 _ hRow
  have hdef : r.setViewport left top right bottom =
      (true,
        { r with
          _viewportRect := { left := left, top := top, right := right, bottom := bottom }
          _viewport :=
            { _x := toUInt32 left, _y := toUInt32 top, _width := toUInt32 (right - left),
              _height := toUInt32 (bottom - top) }
          gl := r.gl.glViewport left (r._height - bottom) (right - left) (bottom - top) }) := by
    have h : r.setViewport left top right bottom =
        (true,
          { r with
            _viewportRect := { left := left, top := top, right := right, bottom := bottom }
            _viewport :=
              { _x := toUInt32 left, _y := toUInt32 top,
                _width := toUInt32 (wrapInt32 (right - left)),
                _height := toUInt32 (wrapInt32 (bottom - top)) }
            gl := r.gl.glViewport left (wrapInt32 (r._height - bottom))
              (wrapInt32 (right - left)) (wrapInt32 (bottom - top)) }) := rfl
    rw [h, hw, hh, hr]
  rw [hdef]
  exact ⟨rfl, rfl, rfl, fun h0 => toUInt32_of_nonneg _ hLeft h0,
    fun h0 => toUInt32_of_nonneg _ hTop h0, fun h0 => toUInt32_of_nonneg _ hWidth h0,
    fun h0 => toUInt32_of_nonneg _ hHeight h0, rfl, rfl, rfl⟩

/-- C4 at a concrete input: on the 800x600 sample renderer, `setViewport(0, 100, 800, 500)`
meets the range conditions, stores `x = 0, y = 100, width = 800, height = 400` and issues
`glViewport(0, 600 - 500, 800 - 0, 500 - 100)`. -/
theorem setViewport_in_range_witness :
    (isInt32 0 ∧ isInt32 100 ∧ isInt32 800 ∧ isInt32 500 ∧ isInt32 sampleRenderer._height ∧
        isInt32 (800 - 0) ∧ isInt32 (500 - 100) ∧ isInt32 (sampleRenderer._height - 500)) ∧
      (sampleRenderer.setViewport 0 100 800 500).2._viewport =
        { _x := toUInt32 0, _y := toUInt32 100, _width := toUInt32 (800 - 0),
          _height := toUInt32 (500 - 100) } ∧
      (sampleRenderer.setViewport 0 100 800 500).2.gl.calls =
        sampleRenderer.gl.calls ++
          [.viewport 0 (sampleRenderer._height - 500) (800 - 0) (500 - 100)] :=
  ⟨by decide,
    (setViewport_in_range sampleRenderer 0 100 800 500 (by decide) (by decide) (by decide)
      (by decide) (by decide) (by decide) (by decide) (by decide)).2.2.1,
    (setViewport_in_range sampleRenderer 0 100 800 500 (by decide) (by decide) (by decide)
      (by decide) (by decide) (by decide) (by decide) (by decide)).2.2.2.2.2.2.2.1⟩

/-- C4 refuted as stated for all integers.  First input: frame height 600 and
`setViewport(-2147483648, 0, 2147483647, 600)`, all 32-bit values: `right - left` is
4294967295, but the width the code passes to `glViewport` is the 32-bit result `-1`.
Second input: `setViewport(-10, -20, 5, 3)`: the unsigned member `x` holds 4294967286,
not `left = -10`. -/
theorem setViewport_all_integers_counterexample :
    (isInt32 (-2147483648) ∧ isInt32 0 ∧ isInt32 2147483647 ∧ isInt32 600 ∧
        sampleRenderer._height = 600) ∧
      (sampleRenderer.setViewport (-2147483648) 0 2147483647 600).2.gl.calls.getLast? =
        some (.viewport (-2147483648) 0 (-1) 600) ∧
      (sampleRenderer.setViewport (-2147483648) 0 2147483647 600).2.gl.calls.getLast? ≠
        some (.viewport (-2147483648) (sampleRenderer._height - 600)
          (2147483647 - (-2147483648)) (600 - 0)) ∧
      (isInt32 (-10) ∧ isInt32 (-20) ∧ isInt32 5 ∧ isInt32 3) ∧
      ((sampleRenderer.setViewport (-10) (-20) 5 3).2._viewport._x : Int) = 4294967286 ∧
      ((sampleRenderer.setViewport (-10) (-20) 5 3).2._viewport._x : Int) ≠ -10 := by
  have hc : (sampleRenderer.setViewport (-2147483648) 0 2147483647 600).2.gl.calls =
      [.viewport (-2147483648) 0 (-1) 600] := by
    decide
  have hx : (sampleRenderer.setViewport (-10) (-20) 5 3).2._viewport._x = 4294967286 := by
    decide
  rw [hc, hx]
  exact ⟨by decide, rfl, by decide, by decide, rfl, by decide⟩

/-! ### C5: `endSpriteBatch` outside batch mode -/

/-- C5: in every state whose sprite-batch-mode flag is off, `endSpriteBatch` returns false
and leaves the renderer and its graphics context exactly as they were. -/
theorem endSpriteBatch_without_start (env : Env) (r : BaseRenderOpenGL3DShader)
    (hOff : r._spriteBatchMode = false) :
    r.endSpriteBatch env = some (false, r) := by
  simp [endSpriteBatch, hOff]

/-- C5 at a concrete input: the fresh sample renderer is outside batch mode. -/
theorem endSpriteBatch_without_start_witness :
    sampleRenderer._spriteBatchMode = false ∧
      sampleRenderer.endSpriteBatch sampleEnv = some (false, sampleRenderer) :=
  ⟨rfl, endSpriteBatch_without_start sampleEnv sampleRenderer rfl⟩

/-! ### C6: `invalidateTexture` -/

/-- C6: for every state and every texture `t`, `invalidateTexture(t)` returns true;
afterwards neither `_lastTexture` nor `_batchTexture` points to `t`; each of the two caches
is cleared exactly when it pointed to `t` and keeps its value otherwise; and no other
member of the renderer, nor the graphics context, changes. -/
theorem invalidateTexture_clears_both_caches (r : BaseRenderOpenGL3DShader) (t : Nat) :
    (r.invalidateTexture (some t)).1 = true ∧
      (r.invalidateTexture (some t)).2._lastTexture ≠ some t ∧
      (r.invalidateTexture (some t)).2._batchTexture ≠ some t ∧
      (r.invalidateTexture (some t)).2._lastTexture =
        (if r._lastTexture = some t then none else r._lastTexture) ∧
      (r.invalidateTexture (some t)).2._batchTexture =
        (if r._batchTexture = some t then none else r._batchTexture) ∧
      (r.invalidateTexture (some t)).2 =
        { r with
          _lastTexture := (r.invalidateTexture (some t)).2._lastTexture
          _batchTexture := (r.invalidateTexture (some t)).2._batchTexture } := by
  by_cases hl : r._lastTexture = some t <;> by_cases hb : r._batchTexture = some t <;>
    simp [invalidateTexture, hl, hb]

/-! ### C7: `lightEnable` -/

/-- One `lightEnable(j, e)` call sets `lights[j].enabled` to the marker of `e` and leaves
the marker of every other index alone. -/
theorem lightEnable_uniform (r : BaseRenderOpenGL3DShader) (j i : Int) (e : Bool) :
    lightUniform (r.lightEnable j e) i "enabled" =
      if j = i then some (.float (enabledMarker e)) else lightUniform r i "enabled" := by
  cases e <;> by_cases h : j = i <;>
    simp [lightUniform, lightEnable, enabledMarker, onGL, GLState.use, GLState.setUniform,
      GLState.issue, h, eq_comm]

/-- A sequence of calls extended by one more call. -/
theorem lightEnableSeq_append (r : BaseRenderOpenGL3DShader) (calls : List (Int × Bool))
    (c : Int × Bool) :
    lightEnableSeq r (calls ++ [c]) = (lightEnableSeq r calls).lightEnable c.1 c.2 := by
  simp [lightEnableSeq, List.foldl_append]

/-- After any sequence of `lightEnable` calls, `lights[i].enabled` holds the marker of the
last call made with index `i`, or its old value when no call had index `i`. -/
theorem lightEnableSeq_uniform (r : BaseRenderOpenGL3DShader) (calls : List (Int × Bool))
    (i : Int) :
    lightUniform (lightEnableSeq r calls) i "enabled" =
      match lastCallWithIndex calls i with
      | some c => some (.float (enabledMarker c.2))
      | none => lightUniform r i "enabled" := by
  induction calls using List.reverseRecOn with
  | nil => simp [lightEnableSeq, lastCallWithIndex]
  | append_singleton cs c ih =>
    rw [lightEnableSeq_append, lightEnable_uniform]
    by_cases h : c.1 = i
    · simp [lastCallWithIndex, List.filter_append, h]
    · simpa [lastCallWithIndex, List.filter_append, h] using ih

/-- C7: for every light index `i` in `0..7` and every finite sequence of `lightEnable`
calls, the model shader uniform `lights[i].enabled` afterwards is `+1` if the last call
made with index `i` had `enable = true` and `-1` if it had `enable = false` (and is
untouched if no call had index `i`), whatever calls were made with other indices and
however many toggles preceded; in particular, after any sequence, `lightEnable(i, false)`
followed by `lightEnable(i, true)` leaves the value `+1`, which is `>= 0`. -/
theorem lightEnable_last_call_decides (r : BaseRenderOpenGL3DShader)
    (calls : List (Int × Bool)) (i : Int) (hLo : 0 ≤ i) (hHi : i < getMaxActiveLights) :
    lightUniform (lightEnableSeq r calls) i "enabled" =
        (match lastCallWithIndex calls i with
         | some c => some (.float (if c.2 = true then 1 else -1))
         | none => lightUniform r i "enabled") ∧
      ∃ v : ℚ,
        lightUniform (lightEnableSeq r (calls ++ [(i, false), (i, true)])) i "enabled" =
          some (.float v) ∧ v = 1 ∧ 0 ≤ v := by
  refine ⟨?_, 1, ?_, rfl, by norm_num⟩
  · rw [lightEnableSeq_uniform]
    rfl
  · rw [lightEnableSeq_uniform]
    simp [lastCallWithIndex, List.filter_append, enabledMarker]

/-- C7 at a concrete input: light 3, toggled off, with light 5 toggled in between, then
light 3 toggled off and on again. -/
theorem lightEnable_last_call_decides_witness :
    ((0 : Int) ≤ 3 ∧ (3 : Int) < getMaxActiveLights) ∧
      ∃ v : ℚ,
        lightUniform
          (lightEnableSeq sampleRenderer ([(3, false), (5, true)] ++ [(3, false), (3, true)]))
          3 "enabled" = some (.float v) ∧ v = 1 ∧ 0 ≤ v :=
  ⟨⟨by decide, by decide⟩,
    (lightEnable_last_call_decides sampleRenderer [(3, false), (5, true)] 3 (by decide)
      (by decide)).2⟩

/-! ### C8: `setLightParameters` -/

/-- C8: for every light index `i`, position `p`, direction `d`, diffuse colour `c` and
spotlight flag, `setLightParameters(i, p, d, c, spotlight)` sets on the model shader
`lights[i]._position = (p.x, p.y, p.z, 1)`, `lights[i]._direction = (d.x, d.y, d.z, w)`
with `w = -1` for a spotlight and `w = 0` otherwise, and
`lights[i]._color = (c.x, c.y, c.z, 0)`; every other uniform of every program keeps its
value, in particular every uniform of another light index and every `lights[j].enabled`
marker. -/
theorem setLightParameters_uploads_light (r : BaseRenderOpenGL3DShader) (i : Int)
    (p d : DXVector3) (c : DXVector4) (spotlight : Bool) :
    lightUniform (r.setLightParameters i p d c spotlight) i "_position" =
        some (.vec4 { x := p._x, y := p._y, z := p._z, w := 1 }) ∧
      lightUniform (r.setLightParameters i p d c spotlight) i "_direction" =
        some (.vec4 { x := d._x, y := d._y, z := d._z, w := if spotlight then -1 else 0 }) ∧
      lightUniform (r.setLightParameters i p d c spotlight) i "_color" =
        some (.vec4 { x := c._x, y := c._y, z := c._z, w := 0 }) ∧
      (∀ (q : ShaderProgram) (n : UniformName),
        ¬ (q = ._xmodelShader ∧
            (n = .lights i "_position" ∨ n = .lights i "_direction" ∨ n = .lights i "_color")) →
        (r.setLightParameters i p d c spotlight).gl.uniforms q n = r.gl.uniforms q n) ∧
      (∀ (j : Int) (member : String), j ≠ i →
        lightUniform (r.setLightParameters i p d c spotlight) j member =
          lightUniform r j member) ∧
      (∀ j : Int,
        lightUniform (r.setLightParameters i p d c spotlight) j "enabled" =
          lightUniform r j "enabled") := by
  have hframe : ∀ (q : ShaderProgram) (n : UniformName),
      ¬ (q = ._xmodelShader ∧
          (n = .lights i "_position" ∨ n = .lights i "_direction" ∨ n = .lights i "_color")) →
      (r.setLightParameters i p d c spotlight).gl.uniforms q n = r.gl.uniforms q n := by
    intro q n hn
    simp only [not_and, not_or] at hn
    by_cases hq : q = ._xmodelShader
    · obtain ⟨h1, h2, h3⟩ := hn hq
      simp [setLightParameters, onGL, GLState.use, GLState.setUniform, GLState.issue, hq,
        h1, h2, h3]
    · simp [setLightParameters, onGL, GLState.use, GLState.setUniform, GLState.issue, hq]
  refine ⟨?_, ?_, ?_, hframe, ?_, ?_⟩
  · simp [lightUniform, setLightParameters, onGL, GLState.use, GLState.setUniform,
      GLState.issue]
  · cases spotlight <;>
      simp [lightUniform, setLightParameters, onGL, GLState.use, GLState.setUniform,
        GLState.issue]
  · simp [lightUniform, setLightParameters, onGL, GLState.use, GLState.setUniform,
      GLState.issue]
  · intro j member hj
    apply hframe
    simp [hj]
  · intro j
    apply hframe
    simp

/-! ### Frame lemmas for the sprite path -/

/-- The method `setSpriteBlendMode` changes at most the cached blend mode, the GPU blend
function and the call trace. -/
theorem setSpriteBlendMode_frame (r : BaseRenderOpenGL3DShader) (blendMode : TSpriteBlendMode)
    (forceChange : Bool) :
    ∃ bm src dst calls, r.setSpriteBlendMode blendMode forceChange =
      { r with
        _blendMode := bm
        gl := { r.gl with blendSrc := src, blendDst := dst, calls := calls } } := by
  unfold setSpriteBlendMode
  split_ifs
  · exact ⟨_, _, _, _, rfl⟩
  · cases blendMode <;> exact ⟨_, _, _, _, rfl⟩

/-- With a non-null batch texture, `commitSpriteBatch` returns true and changes at most
the cached blend mode, the cached last texture, the capability flags, the blend function,
the bound texture and the call trace. -/
theorem commitSpriteBatch_frame (env : Env) (r : BaseRenderOpenGL3DShader) (t : Nat)
    (ht : r._batchTexture = some t) :
    ∃ bm last en src dst tex calls, r.commitSpriteBatch env = some (true,
      { r with
        _blendMode := bm
        _lastTexture := last
        gl := { r.gl with
          enabled := en, blendSrc := src, blendDst := dst, texture2D := tex,
          calls := calls } }) := by
  obtain ⟨bm, src, dst, calls, hf⟩ := setSpriteBlendMode_frame r r._batchBlendMode false
  unfold commitSpriteBatch
  simp only []
  rw [hf]
  simp only [ht]
  cases r._batchAlphaDisable <;> by_cases hl : r._lastTexture = some t <;>
    simp only [hl, ne_eq, not_true_eq_false, not_false_eq_true, if_true, if_false,
      Bool.false_eq_true, Option.map_some', onGL] <;>
    exact ⟨_, _, _, _, _, _, _, rfl⟩

/-- With a non-null batch texture, `commitSpriteBatch` returns true. -/
theorem commitSpriteBatch_returns (env : Env) (r : BaseRenderOpenGL3DShader) (t : Nat)
    (ht : r._batchTexture = some t) :
    ∃ rc, r.commitSpriteBatch env = some (true, rc) := by
  obtain ⟨bm, last, en, src, dst, tex, calls, hc⟩ := commitSpriteBatch_frame env r t ht
  exact ⟨_, hc⟩

/-- The method `setSpriteBlendMode` keeps the sprite buffer handle. -/
theorem setSpriteBlendMode_spriteVBO (r : BaseRenderOpenGL3DShader)
    (blendMode : TSpriteBlendMode) (forceChange : Bool) :
    (r.setSpriteBlendMode blendMode forceChange)._spriteVBO = r._spriteVBO := by
  obtain ⟨bm, src, dst, calls, hf⟩ := setSpriteBlendMode_frame r blendMode forceChange
  rw [hf]

/-- The method `setSpriteBlendMode` keeps the contents of every buffer. -/
theorem setSpriteBlendMode_bufferData (r : BaseRenderOpenGL3DShader)
    (blendMode : TSpriteBlendMode) (forceChange : Bool) :
    (r.setSpriteBlendMode blendMode forceChange).gl.bufferData = r.gl.bufferData := by
  obtain ⟨bm, src, dst, calls, hf⟩ := setSpriteBlendMode_frame r blendMode forceChange
  rw [hf]

/-- The last part of `drawSpriteEx` returns true and leaves the given vertices in the
sprite buffer. -/
theorem submitSprite_uploads (r : BaseRenderOpenGL3DShader) (vertices : List SpriteVertexShader)
    (transform : Matrix3) (alphaDisable : Bool) (blendMode : TSpriteBlendMode) :
    (r.submitSprite vertices transform alphaDisable blendMode).1 = true ∧
      (r.submitSprite vertices transform alphaDisable blendMode).2._spriteVBO = r._spriteVBO ∧
      (r.submitSprite vertices transform alphaDisable blendMode).2.gl.bufferData r._spriteVBO =
        .sprite vertices := by
  cases hb : r._spriteBatchMode <;>
    simp only [submitSprite, hb, Bool.false_eq_true, if_false, if_true, onGL_fields,
      setSpriteBlendMode_spriteVBO, setSpriteBlendMode_bufferData,
      GL_glDrawArrays_fields, GL_glBufferSubData_fields, GL_glBindBuffer_fields,
      and_self]

/-- The quad left in the sprite buffer by the last part of `drawSpriteEx`. -/
theorem uploadedQuad_submitSprite (r : BaseRenderOpenGL3DShader)
    (vertices : List SpriteVertexShader) (transform : Matrix3) (alphaDisable : Bool)
    (blendMode : TSpriteBlendMode) :
    uploadedQuad (some (r.submitSprite vertices transform alphaDisable blendMode)) =
      some vertices := by
  obtain ⟨_, h2, h3⟩ := submitSprite_uploads r vertices transform alphaDisable blendMode
  simp only [uploadedQuad, h2, h3]

/-- Every `drawSpriteEx` call on a non-null texture returns true and leaves in the sprite
buffer the vertices built from its arguments, the frame height and the texture size. -/
theorem drawSpriteEx_uploads (env : Env) (r : BaseRenderOpenGL3DShader) (t : Nat)
    (rect : Rect32) (pos rot scale : Vector2) (angle : ℚ) (color : Nat) (alphaDisable : Bool)
    (blendMode : TSpriteBlendMode) (mirrorX mirrorY : Bool) :
    uploadedQuad (r.drawSpriteEx env (some t) rect pos rot scale angle color alphaDisable
        blendMode mirrorX mirrorY) =
      some (spriteVertices env r._height (env.textures t) rect pos scale
        (if r._forceAlphaColor ≠ 0 then r._forceAlphaColor else color) mirrorX mirrorY) ∧
    (r.drawSpriteEx env (some t) rect pos rot scale angle color alphaDisable
        blendMode mirrorX mirrorY).map (fun p => p.1) = some true := by
  cases hb : r._spriteBatchMode
  · simp only [drawSpriteEx, hb, Bool.false_eq_true, if_false, onGL_fields, Option.map_some',
      uploadedQuad_submitSprite, (submitSprite_uploads _ _ _ _ _).1, and_self]
  · have key : ∀ (o : Option (Bool × BaseRenderOpenGL3DShader))
        (v : List SpriteVertexShader) (m : Matrix3),
        (∃ rc, o = some (true, rc)) →
        uploadedQuad ((o.map fun p => p.2).map fun r =>
            r.submitSprite v m alphaDisable blendMode) = some v ∧
          ((o.map fun p => p.2).map fun r =>
            r.submitSprite v m alphaDisable blendMode).map (fun p => p.1) = some true := by
      rintro o v m ⟨rc, rfl⟩
      simp only [Option.map_some', uploadedQuad_submitSprite,
        (submitSprite_uploads _ _ _ _ _).1, and_self]
    simp only [drawSpriteEx, hb, if_true, onGL_fields]
    apply key
    exact commitSpriteBatch_returns env _ t rfl

/-! ### C9: horizontal mirroring swaps the `u` coordinates only -/

/-- C9: for every source rect and every texture with non-zero width and height, the quad
uploaded by `drawSpriteEx` with `mirrorX = true, mirrorY = false` has `u = rect.right/texWidth`
at vertices 0 and 1 and `u = rect.left/texWidth` at vertices 2 and 3, the unmirrored call
has them exchanged; in both calls `v` is `rect.top/texHeight` at vertices 0 and 2 and
`rect.bottom/texHeight` at vertices 1 and 3; and the positions (and colours) of the two
quads are the same. -/
theorem drawSpriteEx_mirrorX_swaps_u (env : Env) (r : BaseRenderOpenGL3DShader) (t : Nat)
    (rect : Rect32) (pos rot scale : Vector2) (angle : ℚ) (color : Nat) (alphaDisable : Bool)
    (blendMode : TSpriteBlendMode)
    (hWidth : (env.textures t).glTextureWidth ≠ 0)
    (hHeight : (env.textures t).glTextureHeight ≠ 0) :
    (uploadedQuad (r.drawSpriteEx env (some t) rect pos rot scale angle color alphaDisable
        blendMode true false)).map (List.map fun v => v.u) =
      some [(rect.right : ℚ) / ((env.textures t).glTextureWidth : ℚ),
            (rect.right : ℚ) / ((env.textures t).glTextureWidth : ℚ),
            (rect.left : ℚ) / ((env.textures t).glTextureWidth : ℚ),
            (rect.left : ℚ) / ((env.textures t).glTextureWidth : ℚ)] ∧
    (uploadedQuad (r.drawSpriteEx env (some t) rect pos rot scale angle color alphaDisable
        blendMode false false)).map (List.map fun v => v.u) =
      some [(rect.left : ℚ) / ((env.textures t).glTextureWidth : ℚ),
            (rect.left : ℚ) / ((env.textures t).glTextureWidth : ℚ),
            (rect.right : ℚ) / ((env.textures t).glTextureWidth : ℚ),
            (rect.right : ℚ) / ((env.textures t).glTextureWidth : ℚ)] ∧
    (uploadedQuad (r.drawSpriteEx env (some t) rect pos rot scale angle color alphaDisable
        blendMode true false)).map (List.map fun v => v.v) =
      some [(rect.top : ℚ) / ((env.textures t).glTextureHeight : ℚ),
            (rect.bottom : ℚ) / ((env.textures t).glTextureHeight : ℚ),
            (rect.top : ℚ) / ((env.textures t).glTextureHeight : ℚ),
            (rect.bottom : ℚ) / ((env.textures t).glTextureHeight : ℚ)] ∧
    (uploadedQuad (r.drawSpriteEx env (some t) rect pos rot scale angle color alphaDisable
        blendMode false false)).map (List.map fun v => v.v) =
      some [(rect.top : ℚ) / ((env.textures t).glTextureHeight : ℚ),
            (rect.bottom : ℚ) / ((env.textures t).glTextureHeight : ℚ),
            (rect.top : ℚ) / ((env.textures t).glTextureHeight : ℚ),
            (rect.bottom : ℚ) / ((env.textures t).glTextureHeight : ℚ)] ∧
    (uploadedQuad (r.drawSpriteEx env (some t) rect pos rot scale angle color alphaDisable
        blendMode true false)).map (List.map fun v => (v.x, v.y, v.r, v.g, v.b, v.a)) =
      (uploadedQuad (r.drawSpriteEx env (some t) rect pos rot scale angle color alphaDisable
        blendMode false false)).map (List.map fun v => (v.x, v.y, v.r, v.g, v.b, v.a)) := by
  rw [(drawSpriteEx_uploads env r t rect pos rot scale angle color alphaDisable blendMode
      true false).1,
    (drawSpriteEx_uploads env r t rect pos rot scale angle color alphaDisable blendMode
      false false).1]
  simp [spriteVertices]

/-- C9 at a concrete input: the 32x16 sample rect of a 64x64 texture, drawn mirrored by
the fresh sample renderer. -/
theorem drawSpriteEx_mirrorX_swaps_u_witness :
    ((sampleEnv.textures 0).glTextureWidth ≠ 0 ∧ (sampleEnv.textures 0).glTextureHeight ≠ 0) ∧
    (uploadedQuad (sampleRenderer.drawSpriteEx sampleEnv (some 0) sampleRect samplePos sampleRot
        sampleScale 0 0xFFFFFFFF false .BLEND_NORMAL true false)).map (List.map fun v => v.u) =
      some [(sampleRect.right : ℚ) / ((sampleEnv.textures 0).glTextureWidth : ℚ),
            (sampleRect.right : ℚ) / ((sampleEnv.textures 0).glTextureWidth : ℚ),
            (sampleRect.left : ℚ) / ((sampleEnv.textures 0).glTextureWidth : ℚ),
            (sampleRect.left : ℚ) / ((sampleEnv.textures 0).glTextureWidth : ℚ)] :=
  ⟨⟨by decide, by decide⟩,
    (drawSpriteEx_mirrorX_swaps_u sampleEnv sampleRenderer 0 sampleRect samplePos sampleRot
      sampleScale 0 0xFFFFFFFF false .BLEND_NORMAL (by decide) (by decide)).1⟩

/-! ### C10: one Y-flip, and it is an involution -/

/-- The method `drawLine` returns true and leaves its `lineCoords` in the line buffer. -/
theorem drawLine_uploads (env : Env) (r : BaseRenderOpenGL3DShader) (x1 y1 x2 y2 : Int)
    (color : Nat) :
    (r.drawLine env x1 y1 x2 y2 color).1 = true ∧
      (r.drawLine env x1 y1 x2 y2 color).2.gl.bufferData r._lineVBO =
        .floats (lineCoords r._height x1 y1 x2 y2) := by
  simp only [drawLine, onGL_fields, GL_glBindBuffer_fields, GL_glBufferSubData_fields,
    GL_use_fields, GL_setUniform_fields, GL_glDrawArrays_fields, if_true, and_self]

/-- C10: in exact arithmetic, for every frame height `H = _height` and every screen-space
`y`, the flip `drawSpriteEx` applies to the sprite position and to the rotation pivot,
`(y - H/2) * (-1) + H/2`, equals `H - y`, the flip `drawLine` applies to its endpoints;
the flip composed with itself is the identity.  Accordingly the `y` coordinates of the
quad `drawSpriteEx` uploads are `H - pos.y` (minus the scaled height for the lower edge),
its pivot is `(rot.x, H - rot.y)`, and the endpoints `drawLine` uploads are that same
flip of `y1` and `y2`. -/
theorem yflip_consistent_and_involutive (env : Env) (r : BaseRenderOpenGL3DShader) (y : ℚ) :
    correctedY ((r._height : ℚ) / 2) y = (r._height : ℚ) - y ∧
    correctedY ((r._height : ℚ) / 2) (correctedY ((r._height : ℚ) / 2) y) = y ∧
    (r._height : ℚ) - ((r._height : ℚ) - y) = y ∧
    (∀ (x1 y1 x2 y2 : Int) (color : Nat),
      (r.drawLine env x1 y1 x2 y2 color).2.gl.bufferData r._lineVBO =
        .floats [(x1 : ℚ), correctedY ((r._height : ℚ) / 2) (y1 : ℚ),
                 (x2 : ℚ), correctedY ((r._height : ℚ) / 2) (y2 : ℚ)]) ∧
    (∀ (t : Nat) (rect : Rect32) (pos rot scale : Vector2) (angle : ℚ) (color : Nat)
        (alphaDisable : Bool) (blendMode : TSpriteBlendMode) (mirrorX mirrorY : Bool),
      (uploadedQuad (r.drawSpriteEx env (some t) rect pos rot scale angle color alphaDisable
          blendMode mirrorX mirrorY)).map (List.map fun v => v.y) =
        some [(r._height : ℚ) - pos.y,
              (r._height : ℚ) - pos.y - ((rect.bottom - rect.top : Int) : ℚ) * scale.y,
              (r._height : ℚ) - pos.y,
              (r._height : ℚ) - pos.y - ((rect.bottom - rect.top : Int) : ℚ) * scale.y]) ∧
    (∀ (rot : Vector2) (angle : ℚ),
      spriteTransform env r._height rot angle =
        if angle ≠ 0 then
          (env.build2dTransformation { x := rot.x, y := (r._height : ℚ) - rot.y } angle).transpose
        else 1) := by
  have hflip : ∀ z : ℚ, correctedY ((r._height : ℚ) / 2) z = (r._height : ℚ) - z := by
    intro z
    unfold correctedY
    ring
  refine ⟨hflip y, ?_, by ring, ?_, ?_, ?_⟩
  · rw [hflip, hflip]
    ring
  · intro x1 y1 x2 y2 color
    rw [(drawLine_uploads env r x1 y1 x2 y2 color).2]
    simp only [lineCoords, hflip, Int.cast_sub]
  · intro t rect pos rot scale angle color alphaDisable blendMode mirrorX mirrorY
    rw [(drawSpriteEx_uploads env r t rect pos rot scale angle color alphaDisable blendMode
      mirrorX mirrorY).1]
    simp [spriteVertices, hflip]
  · intro rot angle
    simp only [spriteTransform, hflip]

/-! ### Frame lemmas for `fadeToColor` -/

/-- The method `setSpriteBlendMode` leaves every member but `_blendMode` alone, and in the
context everything but the blend function and the call trace. -/
theorem setSpriteBlendMode_fields (r : BaseRenderOpenGL3DShader) (blendMode : TSpriteBlendMode)
    (forceChange : Bool) :
    (r.setSpriteBlendMode blendMode forceChange)._width = r._width ∧
      (r.setSpriteBlendMode blendMode forceChange)._height = r._height ∧
      (r.setSpriteBlendMode blendMode forceChange)._windowed = r._windowed ∧
      (r.setSpriteBlendMode blendMode forceChange)._active = r._active ∧
      (r.setSpriteBlendMode blendMode forceChange)._state = r._state ∧
      (r.setSpriteBlendMode blendMode forceChange)._camera = r._camera ∧
      (r.setSpriteBlendMode blendMode forceChange)._fov = r._fov ∧
      (r.setSpriteBlendMode blendMode forceChange)._nearClipPlane = r._nearClipPlane ∧
      (r.setSpriteBlendMode blendMode forceChange)._farClipPlane = r._farClipPlane ∧
      (r.setSpriteBlendMode blendMode forceChange)._viewMatrix = r._viewMatrix ∧
      (r.setSpriteBlendMode blendMode forceChange)._projectionMatrix = r._projectionMatrix ∧
      (r.setSpriteBlendMode blendMode forceChange)._projectionMatrix2d = r._projectionMatrix2d ∧
      (r.setSpriteBlendMode blendMode forceChange)._worldMatrix = r._worldMatrix ∧
      (r.setSpriteBlendMode blendMode forceChange)._transformStack = r._transformStack ∧
      (r.setSpriteBlendMode blendMode forceChange)._ambientLightColor = r._ambientLightColor ∧
      (r.setSpriteBlendMode blendMode forceChange)._ambientLightOverride = r._ambientLightOverride ∧
      (r.setSpriteBlendMode blendMode forceChange)._viewportRect = r._viewportRect ∧
      (r.setSpriteBlendMode blendMode forceChange)._viewport = r._viewport ∧
      (r.setSpriteBlendMode blendMode forceChange)._drawOffsetX = r._drawOffsetX ∧
      (r.setSpriteBlendMode blendMode forceChange)._drawOffsetY = r._drawOffsetY ∧
      (r.setSpriteBlendMode blendMode forceChange)._forceAlphaColor = r._forceAlphaColor ∧
      (r.setSpriteBlendMode blendMode forceChange)._spriteBatchMode = r._spriteBatchMode ∧
      (r.setSpriteBlendMode blendMode forceChange)._batchTexture = r._batchTexture ∧
      (r.setSpriteBlendMode blendMode forceChange)._batchAlphaDisable = r._batchAlphaDisable ∧
      (r.setSpriteBlendMode blendMode forceChange)._batchBlendMode = r._batchBlendMode ∧
      (r.setSpriteBlendMode blendMode forceChange)._lastTexture = r._lastTexture ∧
      (r.setSpriteBlendMode blendMode forceChange)._spriteVBO = r._spriteVBO ∧
      (r.setSpriteBlendMode blendMode forceChange)._fadeVBO = r._fadeVBO ∧
      (r.setSpriteBlendMode blendMode forceChange)._lineVBO = r._lineVBO ∧
      (r.setSpriteBlendMode blendMode forceChange).gl.enabled = r.gl.enabled ∧
      (r.setSpriteBlendMode blendMode forceChange).gl.frontFace = r.gl.frontFace ∧
      (r.setSpriteBlendMode blendMode forceChange).gl.viewport = r.gl.viewport ∧
      (r.setSpriteBlendMode blendMode forceChange).gl.texture2D = r.gl.texture2D ∧
      (r.setSpriteBlendMode blendMode forceChange).gl.texParameter = r.gl.texParameter ∧
      (r.setSpriteBlendMode blendMode forceChange).gl.arrayBuffer = r.gl.arrayBuffer ∧
      (r.setSpriteBlendMode blendMode forceChange).gl.bufferData = r.gl.bufferData ∧
      (r.setSpriteBlendMode blendMode forceChange).gl.program = r.gl.program ∧
      (r.setSpriteBlendMode blendMode forceChange).gl.uniforms = r.gl.uniforms := by
  obtain ⟨bm, src, dst, calls, hf⟩ := setSpriteBlendMode_frame r blendMode forceChange
  rw [hf]
  exact ⟨rfl, rfl, rfl, rfl, rfl, rfl, rfl, rfl, rfl, rfl, rfl, rfl, rfl, rfl, rfl, rfl, rfl, rfl,
    rfl, rfl, rfl, rfl, rfl, rfl, rfl, rfl, rfl, rfl, rfl, rfl, rfl, rfl, rfl, rfl, rfl, rfl,
    rfl, rfl⟩

/-- The method `setProjection2D` changes at most `_projectionMatrix2d`, the current
program, the uniforms and the call trace. -/
theorem setProjection2D_frame (r : BaseRenderOpenGL3DShader) :
    ∃ m prog uni calls, (r.setProjection2D).2 =
      { r with
        _projectionMatrix2d := m
        gl := { r.gl with program := prog, uniforms := uni, calls := calls } } :=
  ⟨_, _, _, _, rfl⟩

/-- The method `setProjection2D` leaves every member but `_projectionMatrix2d` alone, and in
the context everything but the current program, the uniforms and the call trace. -/
theorem setProjection2D_fields (r : BaseRenderOpenGL3DShader) :
    ((r.setProjection2D).2)._width = r._width ∧
      ((r.setProjection2D).2)._height = r._height ∧
      ((r.setProjection2D).2)._windowed = r._windowed ∧
      ((r.setProjection2D).2)._active = r._active ∧
      ((r.setProjection2D).2)._state = r._state ∧
      ((r.setProjection2D).2)._camera = r._camera ∧
      ((r.setProjection2D).2)._fov = r._fov ∧
      ((r.setProjection2D).2)._nearClipPlane = r._nearClipPlane ∧
      ((r.setProjection2D).2)._farClipPlane = r._farClipPlane ∧
      ((r.setProjection2D).2)._viewMatrix = r._viewMatrix ∧
      ((r.setProjection2D).2)._projectionMatrix = r._projectionMatrix ∧
      ((r.setProjection2D).2)._worldMatrix = r._worldMatrix ∧
      ((r.setProjection2D).2)._transformStack = r._transformStack ∧
      ((r.setProjection2D).2)._ambientLightColor = r._ambientLightColor ∧
      ((r.setProjection2D).2)._ambientLightOverride = r._ambientLightOverride ∧
      ((r.setProjection2D).2)._viewportRect = r._viewportRect ∧
      ((r.setProjection2D).2)._viewport = r._viewport ∧
      ((r.setProjection2D).2)._drawOffsetX = r._drawOffsetX ∧
      ((r.setProjection2D).2)._drawOffsetY = r._drawOffsetY ∧
      ((r.setProjection2D).2)._forceAlphaColor = r._forceAlphaColor ∧
      ((r.setProjection2D).2)._spriteBatchMode = r._spriteBatchMode ∧
      ((r.setProjection2D).2)._batchTexture = r._batchTexture ∧
      ((r.setProjection2D).2)._batchAlphaDisable = r._batchAlphaDisable ∧
      ((r.setProjection2D).2)._batchBlendMode = r._batchBlendMode ∧
      ((r.setProjection2D).2)._lastTexture = r._lastTexture ∧
      ((r.setProjection2D).2)._blendMode = r._blendMode ∧
      ((r.setProjection2D).2)._spriteVBO = r._spriteVBO ∧
      ((r.setProjection2D).2)._fadeVBO = r._fadeVBO ∧
      ((r.setProjection2D).2)._lineVBO = r._lineVBO ∧
      ((r.setProjection2D).2).gl.enabled = r.gl.enabled ∧
      ((r.setProjection2D).2).gl.frontFace = r.gl.frontFace ∧
      ((r.setProjection2D).2).gl.blendSrc = r.gl.blendSrc ∧
      ((r.setProjection2D).2).gl.blendDst = r.gl.blendDst ∧
      ((r.setProjection2D).2).gl.viewport = r.gl.viewport ∧
      ((r.setProjection2D).2).gl.texture2D = r.gl.texture2D ∧
      ((r.setProjection2D).2).gl.texParameter = r.gl.texParameter ∧
      ((r.setProjection2D).2).gl.arrayBuffer = r.gl.arrayBuffer ∧
      ((r.setProjection2D).2).gl.bufferData = r.gl.bufferData := by
  obtain ⟨m, prog, uni, calls, hf⟩ := setProjection2D_frame r
  rw [hf]
  exact ⟨rfl, rfl, rfl, rfl, rfl, rfl, rfl, rfl, rfl, rfl, rfl, rfl, rfl, rfl, rfl, rfl, rfl, rfl, rfl,
    rfl, rfl, rfl, rfl, rfl, rfl, rfl, rfl, rfl, rfl, rfl, rfl, rfl, rfl, rfl, rfl, rfl, rfl,
    rfl⟩

/-- A forced `setup2D` from any state: the mode is 2D, depth and stencil test are off,
culling is on with counter-clockwise front faces, blending is on with
`SRC_ALPHA / ONE_MINUS_SRC_ALPHA`, the GPU viewport is the whole frame; the texture cache,
the cached blend mode and the frame size are kept. -/
theorem setup2D_forced (r : BaseRenderOpenGL3DShader) :
    (r.setup2D true).1 = true ∧
      (r.setup2D true).2._state = .RSTATE_2D ∧
      (r.setup2D true).2.gl.enabled .GL_DEPTH_TEST = false ∧
      (r.setup2D true).2.gl.enabled .GL_STENCIL_TEST = false ∧
      (r.setup2D true).2.gl.enabled .GL_CULL_FACE = true ∧
      (r.setup2D true).2.gl.frontFace = .GL_CCW ∧
      (r.setup2D true).2.gl.enabled .GL_BLEND = true ∧
      (r.setup2D true).2.gl.blendSrc = .GL_SRC_ALPHA ∧
      (r.setup2D true).2.gl.blendDst = .GL_ONE_MINUS_SRC_ALPHA ∧
      (r.setup2D true).2.gl.viewport = (0, 0, r._width, r._height) ∧
      (r.setup2D true).2._lastTexture = r._lastTexture ∧
      (r.setup2D true).2._blendMode = r._blendMode ∧
      (r.setup2D true).2._spriteBatchMode = r._spriteBatchMode := by
  simp [setup2D, setProjection2D_fields]

/-- The method `fadeToColor` ends in a forced `setup2D` of a state that has the frame size
of the start state and an empty texture cache. -/
theorem fadeToColor_eq_setup2D (r : BaseRenderOpenGL3DShader) (red g b a : Fin 256) :
    ∃ x : BaseRenderOpenGL3DShader,
      r.fadeToColor red g b a = (x.setup2D true).2 ∧
      x._width = r._width ∧ x._height = r._height ∧ x._lastTexture = none := by
  refine ⟨_, rfl, ?_, ?_, ?_⟩ <;>
    simp only [onGL_fields, setSpriteBlendMode_fields, setProjection2D_fields]

/-! ### C11: `fadeToColor` leaves the forced 2D pipeline state -/

/-- C11: from every renderer state and for every colour, after `fadeToColor` the mode is
2D and the pipeline is the one a forced `setup2D` establishes: depth test off, stencil test
off, face culling on with counter-clockwise front faces, blending on with
`SRC_ALPHA / ONE_MINUS_SRC_ALPHA`, GPU viewport `(0, 0, _width, _height)`; the pipeline flags
equal those of `setup2D(true)` run on the start state; and the last-bound-texture cache is
empty. -/
theorem fadeToColor_restores_2D_pipeline (r : BaseRenderOpenGL3DShader) (red g b a : Fin 256) :
    (r.fadeToColor red g b a)._state = .RSTATE_2D ∧
      (r.fadeToColor red g b a).gl.enabled .GL_DEPTH_TEST = false ∧
      (r.fadeToColor red g b a).gl.enabled .GL_STENCIL_TEST = false ∧
      (r.fadeToColor red g b a).gl.enabled .GL_CULL_FACE = true ∧
      (r.fadeToColor red g b a).gl.frontFace = .GL_CCW ∧
      (r.fadeToColor red g b a).gl.enabled .GL_BLEND = true ∧
      (r.fadeToColor red g b a).gl.blendSrc = .GL_SRC_ALPHA ∧
      (r.fadeToColor red g b a).gl.blendDst = .GL_ONE_MINUS_SRC_ALPHA ∧
      (r.fadeToColor red g b a).gl.viewport = (0, 0, r._width, r._height) ∧
      pipelineFlags (r.fadeToColor red g b a).gl = pipelineFlags (r.setup2D true).2.gl ∧
      (r.fadeToColor red g b a)._lastTexture = none := by
  obtain ⟨x, hx, hw, hh, hl⟩ := fadeToColor_eq_setup2D r red g b a
  obtain ⟨-, h1, h2, h3, h4, h5, h6, h7, h8, h9, h10, -, -⟩ := setup2D_forced x
  obtain ⟨-, -, k2, k3, k4, k5, k6, k7, k8, -, -, -, -⟩ := setup2D_forced r
  rw [hx]
  refine ⟨h1, h2, h3, h4, h5, h6, h7, h8, ?_, ?_, ?_⟩
  · rw [h9, hw, hh]
  · simp only [pipelineFlags, h2, h3, h4, h5, h6, h7, h8, k2, k3, k4, k5, k6, k7, k8]
  · rw [h10, hl]

/-! ### C12: `renderShadowGeometry` renders exactly the active shadow receivers -/

/-- A call other than a mesh render adds nothing to the rendered meshes. -/
theorem meshRenders_append_other (calls : List GLCall) (c : GLCall)
    (hc : ∀ mesh, c ≠ .meshRender mesh) :
    meshRenders (calls ++ [c]) = meshRenders calls := by
  cases c <;> simp [meshRenders, List.filterMap_append] at hc ⊢

/-- A mesh render adds its mesh at the end. -/
theorem meshRenders_append_mesh (calls : List GLCall) (mesh : Nat) :
    meshRenders (calls ++ [.meshRender mesh]) = meshRenders calls ++ [mesh] := by
  simp [meshRenders, List.filterMap_append]

/-- One loop of `renderShadowGeometry` renders the active shadow receivers of its
collection, in order, and nothing else. -/
theorem renderReceivers_meshRenders (r : BaseRenderOpenGL3DShader) (entries : List SceneEntry) :
    meshRenders (r.renderReceivers entries).gl.calls =
      meshRenders r.gl.calls ++ shadowReceivers entries := by
  induction entries generalizing r with
  | nil => simp [renderReceivers, shadowReceivers]
  | cons e es ih =>
    have hstep : r.renderReceivers (e :: es) =
        (if e._active && e._receiveShadows then r.onGL fun g => g.meshRender e._mesh
          else r).renderReceivers es := rfl
    rw [hstep, ih]
    by_cases he : (e._active && e._receiveShadows) = true
    · simp [he, shadowReceivers, meshRenders_append_mesh]
    · simp [he, shadowReceivers]

/-- The method `setSpriteBlendMode` renders no mesh. -/
theorem setSpriteBlendMode_meshRenders (r : BaseRenderOpenGL3DShader)
    (blendMode : TSpriteBlendMode) (forceChange : Bool) :
    meshRenders (r.setSpriteBlendMode blendMode forceChange).gl.calls =
      meshRenders r.gl.calls := by
  unfold setSpriteBlendMode
  split_ifs
  · rfl
  · cases blendMode <;> simp [meshRenders, List.filterMap_append]

/-- The method `setWorldTransform` renders no mesh. -/
theorem setWorldTransform_meshRenders (env : Env) (r : BaseRenderOpenGL3DShader)
    (transform : DXMatrix) :
    meshRenders (r.setWorldTransform env transform).2.gl.calls = meshRenders r.gl.calls := by
  simp [setWorldTransform, meshRenders, List.filterMap_append]

/-- The mode-entry part of `setup3D` renders no mesh. -/
theorem enter3D_meshRenders (env : Env) (r : BaseRenderOpenGL3DShader) (camera : Option Nat) :
    meshRenders (r.enter3D env camera).gl.calls = meshRenders r.gl.calls := by
  unfold enter3D
  simp only [resolveCamera, setProjection, setProjectionTransform, setViewTransform,
    setAmbientLightRenderState]
  split <;> split_ifs <;> simp [meshRenders, List.filterMap_append]

/-- The method `setup3D` renders no mesh. -/
theorem setup3D_meshRenders (env : Env) (r : BaseRenderOpenGL3DShader) (camera : Option Nat)
    (force : Bool) :
    meshRenders (r.setup3D env camera force).2.gl.calls = meshRenders r.gl.calls := by
  have h := enter3D_meshRenders env r camera
  simp only [setup3D]
  split_ifs
  · simpa [meshRenders, List.filterMap_append] using h
  · simp [meshRenders, List.filterMap_append]

/-- C12: for all collections of walk planes, blocks and generics (and every camera),
`renderShadowGeometry` calls `render()` on exactly the meshes of the entries that have both
`_active` and `_receiveShadows` set, once per such entry, in the order: blocks in collection
order, then walk planes, then generics; an entry lacking either flag is not rendered. -/
theorem renderShadowGeometry_renders_receivers (env : Env) (r : BaseRenderOpenGL3DShader)
    (planes blocks generics : List SceneEntry) (camera : Option Nat) :
    meshRenders (r.renderShadowGeometry env planes blocks generics camera).gl.calls =
      meshRenders r.gl.calls ++
        (shadowReceivers blocks ++ shadowReceivers planes ++ shadowReceivers generics) := by
  have hother : ∀ (x : BaseRenderOpenGL3DShader),
      meshRenders
          ((((((({ (x.setSpriteBlendMode .BLEND_UNKNOWN false).onGL
                      (fun g => g.glBlendFunc .GL_ZERO .GL_ONE) with
                    _lastTexture := none } : BaseRenderOpenGL3DShader).onGL
                  fun g => g.glBindTexture 0).onGL
                fun g => g.glFrontFace .GL_CW).renderReceivers blocks).renderReceivers
              planes).renderReceivers generics).setSpriteBlendMode .BLEND_NORMAL false).gl.calls =
        meshRenders x.gl.calls ++
          (shadowReceivers blocks ++ shadowReceivers planes ++ shadowReceivers generics) := by
    intro x
    rw [setSpriteBlendMode_meshRenders, renderReceivers_meshRenders,
      renderReceivers_meshRenders, renderReceivers_meshRenders]
    have hx : meshRenders
        ((({ (x.setSpriteBlendMode .BLEND_UNKNOWN false).onGL
                (fun g => g.glBlendFunc .GL_ZERO .GL_ONE) with
              _lastTexture := none } : BaseRenderOpenGL3DShader).onGL
            fun g => g.glBindTexture 0).onGL fun g => g.glFrontFace .GL_CW).gl.calls =
        meshRenders x.gl.calls := by
      have h := setSpriteBlendMode_meshRenders x .BLEND_UNKNOWN false
      simpa [meshRenders, List.filterMap_append] using h
    rw [hx]
    simp only [List.append_assoc]
  cases camera with
  | none =>
    have h := hother (r.setWorldTransform env 1).2
    rw [setWorldTransform_meshRenders] at h
    exact h
  | some c =>
    have h := hother ((r.setup3D env (some c) true).2.setWorldTransform env 1).2
    rw [setWorldTransform_meshRenders, setup3D_meshRenders] at h
    exact h

end BaseRenderOpenGL3DShader

namespace XModel

namespace XModelMatSprite

/-! ### C13: a material is bound to a sprite or to a video, never both -/

/-- After either setter at most one binding is active, whatever the record held before. -/
theorem activeBindings_setter (m : XModelMatSprite) (c : SetterCall) :
    activeBindings (runSetters m [c]) ≤ 1 := by
  cases c with
  | setSprite sprite => cases sprite <;> simp [runSetters, setSprite, activeBindings]
  | setTheora theora => cases theora <;> simp [runSetters, setTheora, activeBindings]

/-- Setter calls keep the property that at most one binding is active. -/
theorem activeBindings_runSetters (m : XModelMatSprite) (calls : List SetterCall)
    (hm : activeBindings m ≤ 1) :
    activeBindings (runSetters m calls) ≤ 1 := by
  induction calls generalizing m with
  | nil => simpa [runSetters] using hm
  | cons c cs ih =>
    have hstep : runSetters m (c :: cs) = runSetters (runSetters m [c]) cs := by
      simp [runSetters]
    rw [hstep]
    exact ih _ (activeBindings_setter m c)

/-- C13: for every `XModelMatSprite`, after `setSprite(s)` the sprite binding is `s` and
the video binding is null, and after `setTheora(t)` the video binding is `t` and the sprite
binding is null; hence `setSprite(s)` followed by `setTheora(t)` with non-null `s`, `t`
leaves exactly one active binding, the video `t`; and each of the three constructors,
followed by any finite sequence of setter calls, gives a record in which a sprite and a
video are not both bound. -/
theorem material_binding_exclusive (m : XModelMatSprite) :
    (∀ s : Option Nat, (m.setSprite s).2.1._sprite = s ∧ (m.setSprite s).2.1._theora = none) ∧
    (∀ t : Option Nat, (m.setTheora t).2.1._theora = t ∧ (m.setTheora t).2.1._sprite = none) ∧
    (∀ s t : Nat,
      (((m.setSprite (some s)).2.1).setTheora (some t)).2.1._theora = some t ∧
      (((m.setSprite (some s)).2.1).setTheora (some t)).2.1._sprite = none ∧
      activeBindings (((m.setSprite (some s)).2.1).setTheora (some t)).2.1 = 1) ∧
    (∀ (matName : Option String) (p : Option Nat) (calls : List SetterCall),
      activeBindings (runSetters new calls) ≤ 1 ∧
      activeBindings (runSetters (newSprite matName p) calls) ≤ 1 ∧
      activeBindings (runSetters (newTheora matName p) calls) ≤ 1 ∧
      ¬ ((runSetters new calls)._sprite.isSome ∧ (runSetters new calls)._theora.isSome) ∧
      ¬ ((runSetters (newSprite matName p) calls)._sprite.isSome ∧
          (runSetters (newSprite matName p) calls)._theora.isSome) ∧
      ¬ ((runSetters (newTheora matName p) calls)._sprite.isSome ∧
          (runSetters (newTheora matName p) calls)._theora.isSome)) := by
  have hnot : ∀ x : XModelMatSprite, activeBindings x ≤ 1 →
      ¬ (x._sprite.isSome ∧ x._theora.isSome) := by
    intro x hx ⟨h1, h2⟩
    simp [activeBindings, h1, h2] at hx
  refine ⟨fun s => ⟨rfl, rfl⟩, fun t => ⟨rfl, rfl⟩, fun s t => ⟨rfl, rfl, rfl⟩, ?_⟩
  intro matName p calls
  have h0 : activeBindings (runSetters new calls) ≤ 1 :=
    activeBindings_runSetters _ calls (by simp [activeBindings, new])
  have h1 : activeBindings (runSetters (newSprite matName p) calls) ≤ 1 :=
    activeBindings_runSetters _ calls (by cases p <;> simp [activeBindings, newSprite])
  have h2 : activeBindings (runSetters (newTheora matName p) calls) ≤ 1 :=
    activeBindings_runSetters _ calls (by cases p <;> simp [activeBindings, newTheora])
  exact ⟨h0, h1, h2, hnot _ h0, hnot _ h1, hnot _ h2⟩

end XModelMatSprite

end XModel

namespace BaseRenderOpenGL3DShader

/-! ### C14: the rectangle `takeScreenshot` reads back -/

/-- After `setViewport(left, top, right, bottom)`, `takeScreenshot` makes one GL call,
`glReadPixels(left, (bottom - top) - bottom, right - left, bottom - top)`: the row it starts
at is computed from the viewport height, not from the frame height. -/
theorem takeScreenshot_after_setViewport (r : BaseRenderOpenGL3DShader)
    (left top right bottom : Int) :
    ((r.setViewport left top right bottom).2.takeScreenshot).gl.calls =
      r.gl.calls ++
        [.viewport left (wrapInt32 (r._height - bottom)) (wrapInt32 (right - left))
           (wrapInt32 (bottom - top)),
         .readPixels left ((bottom - top) - bottom) (right - left) (bottom - top)] := by
  simp [takeScreenshot, setViewport, Rect32.setRect, Rect32.width, Rect32.height]

/-- C14 at the failing input: frame height 600 and `setViewport(0, 100, 800, 500)`.  The GPU
viewport call is `glViewport(0, 100, 800, 400)`, but `takeScreenshot` reads back
`glReadPixels(0, -100, 800, 400)`, a different rectangle. -/
theorem takeScreenshot_reads_other_rectangle :
    sampleRenderer._height = 600 ∧
      sampleRendererBand.gl.calls.getLast? = some (.viewport 0 100 800 400) ∧
      (sampleRendererBand.takeScreenshot).gl.calls.getLast? =
        some (.readPixels 0 (-100) 800 400) ∧
      (sampleRendererBand.takeScreenshot).gl.calls.getLast? ≠
        some (.readPixels 0 100 800 400) := by
  have h := takeScreenshot_after_setViewport sampleRenderer 0 100 800 500
  have hv : sampleRendererBand.gl.calls = [.viewport 0 100 800 400] := by decide
  have hs : (sampleRendererBand.takeScreenshot).gl.calls =
      [.viewport 0 100 800 400, .readPixels 0 (-100) 800 400] := by
    rw [sampleRendererBand, h]
    decide
  rw [hv, hs]
  exact ⟨rfl, rfl, rfl, by decide⟩

/-! ### C15: the GPU viewport `setViewport3D` issues -/

/-- The method `setViewport3D` returns true, stores the viewport and makes one GL call,
`glViewport(x, _height - height, width, height)` in 32-bit arithmetic: the viewport's `y` is
not used. -/
theorem setViewport3D_call (r : BaseRenderOpenGL3DShader) (v : DXViewport) :
    (r.setViewport3D v).1 = true ∧
      (r.setViewport3D v).2._viewport = v ∧
      (r.setViewport3D v).2.gl.calls =
        r.gl.calls ++
          [.viewport (wrapInt32 (v._x : Int)) (wrapInt32 (r._height - (v._height : Int)))
            (wrapInt32 (v._width : Int)) (wrapInt32 (v._height : Int))] :=
  ⟨rfl, rfl, rfl⟩

/-- C15 at the failing input: frame height 600 and the viewport
`x = 0, y = 100, width = 800, height = 400`.  `setViewport3D` stores it but issues
`glViewport(0, 200, 800, 400)`, whereas `H - (y + height) = 100` and
`setViewport(0, 100, 800, 500)` issues `glViewport(0, 100, 800, 400)`. -/
theorem setViewport3D_ignores_y :
    sampleRenderer._height = 600 ∧
      (sampleRenderer.setViewport3D sampleViewportBand).2._viewport = sampleViewportBand ∧
      (sampleRenderer.setViewport3D sampleViewportBand).2.gl.calls.getLast? =
        some (.viewport 0 200 800 400) ∧
      (sampleRenderer.setViewport 0 (0 + 100) (0 + 800) (100 + 400)).2.gl.calls.getLast? =
        some (.viewport 0 100 800 400) ∧
      (sampleRenderer.setViewport3D sampleViewportBand).2.gl.calls.getLast? ≠
        (sampleRenderer.setViewport 0 (0 + 100) (0 + 800) (100 + 400)).2.gl.calls.getLast? := by
  have h3 : (sampleRenderer.setViewport3D sampleViewportBand).2.gl.calls =
      [.viewport 0 200 800 400] := by decide
  have h2 : (sampleRenderer.setViewport 0 (0 + 100) (0 + 800) (100 + 400)).2.gl.calls =
      [.viewport 0 100 800 400] := by decide
  rw [h3, h2]
  exact ⟨rfl, rfl, rfl, rfl, by decide⟩

/-! ### The blend-mode cache along the sprite path -/

/-- What `setSpriteBlendMode(blendMode)` does: the cached mode becomes `blendMode`; the GPU
blend function is left alone when `blendMode` is already the cached mode or prescribes
nothing, and is otherwise set to the function `blendMode` prescribes. -/
theorem setSpriteBlendMode_blend (r : BaseRenderOpenGL3DShader) (blendMode : TSpriteBlendMode) :
    (r.setSpriteBlendMode blendMode false)._blendMode = blendMode ∧
      blendFunc (r.setSpriteBlendMode blendMode false).gl =
        (if blendMode = r._blendMode then blendFunc r.gl
         else (prescribedBlendFunc blendMode).getD (blendFunc r.gl)) ∧
      stripDraws (r.setSpriteBlendMode blendMode false).gl.calls = stripDraws r.gl.calls := by
  unfold setSpriteBlendMode
  by_cases h : blendMode = r._blendMode
  · simp [h]
  · cases blendMode <;>
      simp [h, blendFunc, prescribedBlendFunc, stripDraws, List.count_append] at h ⊢

/-- The camera block of `setup3D` changes at most the camera pointer, the view matrix, the
field of view and the two clip planes. -/
theorem resolveCamera_frame (env : Env) (r : BaseRenderOpenGL3DShader) (camera : Option Nat) :
    ∃ cam vm fov near far, r.resolveCamera env camera =
      { r with
        _camera := cam, _viewMatrix := vm, _fov := fov
        _nearClipPlane := near, _farClipPlane := far } := by
  unfold resolveCamera
  cases camera <;> cases hc : r._camera <;>
    simp only [hc, Option.isSome_none, Option.isSome_some, Bool.false_eq_true, if_false,
      if_true, setViewTransform] <;>
    first
      | exact ⟨_, _, _, _, _, rfl⟩
      | (split_ifs <;> exact ⟨_, _, _, _, _, rfl⟩)

/-- The mode-entry part of `setup3D` changes at most the mode, the camera and projection
members, and in the context the capability flags, the viewport, the current program, the
uniforms and the call trace. -/
theorem enter3D_frame (env : Env) (r : BaseRenderOpenGL3DShader) (camera : Option Nat) :
    ∃ cam vm fov near far proj en vp prog uni calls, r.enter3D env camera =
      { r with
        _state := .RSTATE_3D, _camera := cam, _viewMatrix := vm, _fov := fov
        _nearClipPlane := near, _farClipPlane := far, _projectionMatrix := proj
        gl := { r.gl with
          enabled := en, viewport := vp, program := prog, uniforms := uni, calls := calls } } := by
  obtain ⟨cam, vm, fov, near, far, hf⟩ := resolveCamera_frame env
    (((({ r with _state := .RSTATE_3D } : BaseRenderOpenGL3DShader).onGL
        fun g => g.glEnable .GL_DEPTH_TEST).onGL
        fun g => g.glEnable .GL_BLEND).setAmbientLightRenderState env) camera
  unfold enter3D
  simp only []
  rw [hf]
  exact ⟨_, _, _, _, _, _, _, _, _, _, _, rfl⟩

/-- The mode-entry part of `setup3D` sets the mode to 3D and keeps the sprite-batch flag,
the texture and blend-mode caches, the frame size, and in the context the front face and
the blend function. -/
theorem enter3D_fields (env : Env) (r : BaseRenderOpenGL3DShader) (camera : Option Nat) :
    (r.enter3D env camera)._state = .RSTATE_3D ∧
      (r.enter3D env camera)._blendMode = r._blendMode ∧
      (r.enter3D env camera)._spriteBatchMode = r._spriteBatchMode ∧
      (r.enter3D env camera)._lastTexture = r._lastTexture ∧
      (r.enter3D env camera)._batchTexture = r._batchTexture ∧
      (r.enter3D env camera)._width = r._width ∧
      (r.enter3D env camera)._height = r._height ∧
      (r.enter3D env camera).gl.frontFace = r.gl.frontFace ∧
      (r.enter3D env camera).gl.blendSrc = r.gl.blendSrc ∧
      (r.enter3D env camera).gl.blendDst = r.gl.blendDst := by
  obtain ⟨cam, vm, fov, near, far, proj, en, vp, prog, uni, calls, hf⟩ :=
    enter3D_frame env r camera
  rw [hf]
  exact ⟨rfl, rfl, rfl, rfl, rfl, rfl, rfl, rfl, rfl, rfl⟩

/-- The method `setup3D` keeps the sprite-batch flag, the texture and blend-mode caches, the
frame size, and in the context the front face and the blend function; when it enters the
mode, the mode afterwards is 3D. -/
theorem setup3D_fields (env : Env) (r : BaseRenderOpenGL3DShader) (camera : Option Nat)
    (force : Bool) :
    ((r._state ≠ .RSTATE_3D ∨ force = true) → (r.setup3D env camera force).2._state = .RSTATE_3D) ∧
      (r.setup3D env camera force).2._blendMode = r._blendMode ∧
      (r.setup3D env camera force).2._spriteBatchMode = r._spriteBatchMode ∧
      (r.setup3D env camera force).2._lastTexture = r._lastTexture ∧
      (r.setup3D env camera force).2._batchTexture = r._batchTexture ∧
      (r.setup3D env camera force).2._width = r._width ∧
      (r.setup3D env camera force).2._height = r._height ∧
      (r.setup3D env camera force).2.gl.frontFace = r.gl.frontFace ∧
      (r.setup3D env camera force).2.gl.blendSrc = r.gl.blendSrc ∧
      (r.setup3D env camera force).2.gl.blendDst = r.gl.blendDst := by
  obtain ⟨e1, e2, e3, e4, e5, e6, e7, e8, e9, e10⟩ := enter3D_fields env r camera
  by_cases hc : (decide (r._state ≠ .RSTATE_3D) || force) = true
  · simp only [setup3D, hc, if_true, onGL_fields, GL_use_fields, GL_setUniform_fields]
    exact ⟨fun _ => e1, e2, e3, e4, e5, e6, e7, e8, e9, e10⟩
  · simp only [setup3D, hc, if_false, onGL_fields, GL_use_fields, GL_setUniform_fields]
    refine ⟨fun h => ?_, rfl, rfl, rfl, rfl, rfl, rfl, rfl, rfl, rfl⟩
    exfalso
    apply hc
    rcases h with h | h
    · simp [h]
    · simp [h]

/-- Outside batch mode the last part of `drawSpriteEx` sets the blend mode through the
cache and then draws: the cached mode becomes `blendMode`, the GPU blend function is only
touched when `blendMode` differs from the cached mode, the trace ends with the
triangle-strip draw, and exactly one such draw is added. -/
theorem submitSprite_draws (r : BaseRenderOpenGL3DShader) (vertices : List SpriteVertexShader)
    (transform : Matrix3) (alphaDisable : Bool) (blendMode : TSpriteBlendMode)
    (hOff : r._spriteBatchMode = false) :
    (r.submitSprite vertices transform alphaDisable blendMode).1 = true ∧
      (r.submitSprite vertices transform alphaDisable blendMode).2._spriteBatchMode = false ∧
      (r.submitSprite vertices transform alphaDisable blendMode).2._blendMode = blendMode ∧
      blendFunc (r.submitSprite vertices transform alphaDisable blendMode).2.gl =
        (if blendMode = r._blendMode then blendFunc r.gl
         else (prescribedBlendFunc blendMode).getD (blendFunc r.gl)) ∧
      (r.submitSprite vertices transform alphaDisable blendMode).2.gl.calls.getLast? =
        some (.drawArrays .GL_TRIANGLE_STRIP 0 4) ∧
      stripDraws (r.submitSprite vertices transform alphaDisable blendMode).2.gl.calls =
        stripDraws r.gl.calls + 1 ∧
      (r.submitSprite vertices transform alphaDisable blendMode).2._state = r._state := by
  have hx : ∃ x : BaseRenderOpenGL3DShader,
      r.submitSprite vertices transform alphaDisable blendMode =
        (true, (x.setSpriteBlendMode blendMode false).onGL
          fun g => g.glDrawArrays .GL_TRIANGLE_STRIP 0 4) ∧
      x._spriteBatchMode = false ∧ x._blendMode = r._blendMode ∧
      blendFunc x.gl = blendFunc r.gl ∧ stripDraws x.gl.calls = stripDraws r.gl.calls ∧
      x._state = r._state := by
    refine ⟨(((((r.onGL fun g => g.use ._spriteShader).onGL fun g =>
        g.setUniform ._spriteShader (.plain "alphaTest") (.bool (!alphaDisable))).onGL fun g =>
        g.setUniform ._spriteShader (.plain "transform") (.mat3 transform)).onGL fun g =>
        g.setUniform ._spriteShader (.plain "projMatrix") (.mat4 r._projectionMatrix2d)).onGL
        fun g => g.glBindBuffer r._spriteVBO).onGL fun g => g.glBufferSubData (.sprite vertices),
      ?_, ?_, ?_, ?_, ?_, ?_⟩
    · simp only [submitSprite, onGL_fields, hOff, Bool.false_eq_true, if_false]
    · simp only [onGL_fields, hOff]
    · simp only [onGL_fields]
    · simp only [blendFunc, onGL_fields, GL_use_fields, GL_setUniform_fields,
        GL_glBindBuffer_fields, GL_glBufferSubData_fields]
    · simp [stripDraws, List.count_append]
    · simp only [onGL_fields]
  obtain ⟨x, hx, hb, hm, hf, hs, hst⟩ := hx
  obtain ⟨k1, k2, k3⟩ := setSpriteBlendMode_blend x blendMode
  have kb := (setSpriteBlendMode_fields x blendMode false)
  rw [hx]
  refine ⟨rfl, ?_, ?_, ?_, ?_, ?_, ?_⟩
  · simp only [onGL_fields, kb, hb]
  · simp only [onGL_fields, k1]
  · have : blendFunc ((x.setSpriteBlendMode blendMode false).onGL
        fun g => g.glDrawArrays .GL_TRIANGLE_STRIP 0 4).gl =
        blendFunc (x.setSpriteBlendMode blendMode false).gl := rfl
    rw [this, k2, hm, hf]
  · simp [List.getLast?_append]
  · simp only [onGL_fields, GL_glDrawArrays_fields, stripDraws, List.count_append,
      List.count_singleton_self] at k3 hs ⊢
    rw [k3, hs]
  · simp only [onGL_fields, kb, hst]

/-- Outside batch mode a `drawSpriteEx` call on a non-null texture returns true, stays
outside batch mode, caches its blend mode, touches the GPU blend function only when its
blend mode differs from the cached one, and ends with its own triangle-strip draw. -/
theorem drawSprite_outside_batch (env : Env) (r : BaseRenderOpenGL3DShader) (t : Nat)
    (a : SpriteArgs) (hOff : r._spriteBatchMode = false) :
    ∃ r1 : BaseRenderOpenGL3DShader,
      drawSprite env r (some t) a = some (true, r1) ∧
      r1._spriteBatchMode = false ∧
      r1._blendMode = a.blendMode ∧
      blendFunc r1.gl =
        (if a.blendMode = r._blendMode then blendFunc r.gl
         else (prescribedBlendFunc a.blendMode).getD (blendFunc r.gl)) ∧
      r1.gl.calls.getLast? = some (.drawArrays .GL_TRIANGLE_STRIP 0 4) ∧
      stripDraws r1.gl.calls = stripDraws r.gl.calls + 1 ∧
      r1._state = r._state := by
  have hd : drawSprite env r (some t) a =
      some ((((r.onGL fun g => g.glBindTexture (env.textures t).textureName).onGL
          fun g => g.glTexParameteri .GL_TEXTURE_WRAP_S .GL_CLAMP_TO_EDGE).onGL
          fun g => g.glTexParameteri .GL_TEXTURE_WRAP_T .GL_CLAMP_TO_EDGE).submitSprite
        (spriteVertices env r._height (env.textures t) a.rect a.pos a.scale
          (if r._forceAlphaColor ≠ 0 then r._forceAlphaColor else a.color) a.mirrorX a.mirrorY)
        (spriteTransform env r._height a.rot a.angle) a.alphaDisable a.blendMode) := by
    simp only [drawSprite, drawSpriteEx, hOff, Bool.false_eq_true, if_false, onGL_fields,
      Option.map_some']
  have key : ∀ (x : BaseRenderOpenGL3DShader) (v : List SpriteVertexShader) (m : Matrix3),
      x._spriteBatchMode = false → x._blendMode = r._blendMode →
      blendFunc x.gl = blendFunc r.gl → stripDraws x.gl.calls = stripDraws r.gl.calls →
      x._state = r._state →
      ∃ r1 : BaseRenderOpenGL3DShader,
        some (x.submitSprite v m a.alphaDisable a.blendMode) = some (true, r1) ∧
        r1._spriteBatchMode = false ∧
        r1._blendMode = a.blendMode ∧
        blendFunc r1.gl =
          (if a.blendMode = r._blendMode then blendFunc r.gl
           else (prescribedBlendFunc a.blendMode).getD (blendFunc r.gl)) ∧
        r1.gl.calls.getLast? = some (.drawArrays .GL_TRIANGLE_STRIP 0 4) ∧
        stripDraws r1.gl.calls = stripDraws r.gl.calls + 1 ∧
        r1._state = r._state := by
    intro x v m hb hm hf hs hst
    obtain ⟨h1, h2, h3, h4, h5, h6, h7⟩ :=
      submitSprite_draws x v m a.alphaDisable a.blendMode hb
    refine ⟨_, ?_, h2, h3, ?_, h5, ?_, ?_⟩
    · rw [← h1]
    · rw [h4, hm, hf]
    · rw [h6, hs]
    · rw [h7, hst]
  rw [hd]
  apply key
  · simp only [onGL_fields, hOff]
  · simp only [onGL_fields]
  · simp only [blendFunc, onGL_fields, GL_glBindTexture_fields, GL_glTexParameteri_fields]
  · simp [stripDraws, List.count_append]
  · simp only [onGL_fields]

/-- Outside batch mode every `drawSpriteEx` call of a sequence draws its own quad at once:
the sequence succeeds, stays outside batch mode, and adds one triangle-strip draw per
call. -/
theorem drawSprites_outside_batch (env : Env) (r : BaseRenderOpenGL3DShader)
    (calls : List (Nat × SpriteArgs)) (hOff : r._spriteBatchMode = false) :
    ∃ r1 : BaseRenderOpenGL3DShader,
      drawSprites env r calls = some r1 ∧
      r1._spriteBatchMode = false ∧
      stripDraws r1.gl.calls = stripDraws r.gl.calls + calls.length := by
  induction calls generalizing r with
  | nil => exact ⟨r, rfl, hOff, rfl⟩
  | cons c cs ih =>
    obtain ⟨r1, hd, hb, -, -, -, hs, -⟩ := drawSprite_outside_batch env r c.1 c.2 hOff
    obtain ⟨r2, hd2, hb2, hs2⟩ := ih r1 hb
    refine ⟨r2, ?_, hb2, ?_⟩
    · simp only [drawSprites, hd, hd2]
    · rw [hs2, hs, List.length_cons]
      omega

/-- Entering 2D mode from another mode does what a forced `setup2D` does. -/
theorem setup2D_of_enter (r : BaseRenderOpenGL3DShader) (h : r._state ≠ .RSTATE_2D) :
    r.setup2D false = r.setup2D true := by
  simp [setup2D, h]

/-! ### C16: the cached blend mode and the GPU blend function -/

/-- C16 at the failing input: starting from the fresh renderer, the frame
`setup2D(false)`, `drawSpriteEx(.., BLEND_ADDITIVE)`, `setup3D(camera, false)`,
`setup2D(false)` ends outside batch mode with the cached blend mode `BLEND_ADDITIVE` but with
the GPU blend function `SRC_ALPHA / ONE_MINUS_SRC_ALPHA`, since `setup2D` calls `glBlendFunc`
without touching the cache; the next `drawSpriteEx(.., BLEND_ADDITIVE)` returns true and
issues its triangle-strip draw with `SRC_ALPHA / ONE_MINUS_SRC_ALPHA`, not with the
`SRC_ALPHA / ONE` that `BLEND_ADDITIVE` prescribes. -/
theorem drawSpriteEx_stale_blend_cache :
    ∃ s s1 : BaseRenderOpenGL3DShader,
      runOps sampleEnv sampleRenderer sampleFrame = some s ∧
      s._spriteBatchMode = false ∧
      s._blendMode = .BLEND_ADDITIVE ∧
      blendFunc s.gl = (.GL_SRC_ALPHA, .GL_ONE_MINUS_SRC_ALPHA) ∧
      prescribedBlendFunc .BLEND_ADDITIVE = some (.GL_SRC_ALPHA, .GL_ONE) ∧
      drawSprite sampleEnv s (some 0) (sampleSpriteArgs .BLEND_ADDITIVE) = some (true, s1) ∧
      s1.gl.calls.getLast? = some (.drawArrays .GL_TRIANGLE_STRIP 0 4) ∧
      blendFunc s1.gl = (.GL_SRC_ALPHA, .GL_ONE_MINUS_SRC_ALPHA) ∧
      some (blendFunc s1.gl) ≠ prescribedBlendFunc .BLEND_ADDITIVE := by
  -- setup2D(false) from the fresh state
  have ha0 : sampleRenderer.setup2D false = sampleRenderer.setup2D true :=
    setup2D_of_enter sampleRenderer (by decide)
  obtain ⟨-, a2, -, -, -, -, -, -, -, -, -, a12, a13⟩ := setup2D_forced sampleRenderer
  rw [← ha0] at a2 a12 a13
  -- the additive sprite
  obtain ⟨r1, hd1, b1, bm1, -, -, -, st1⟩ := drawSprite_outside_batch sampleEnv
    (sampleRenderer.setup2D false).2 0 (sampleSpriteArgs .BLEND_ADDITIVE) (a13.trans rfl)
  -- setup3D(camera, false)
  obtain ⟨c1, c2, c3, -, -, -, -, -, -, -⟩ := setup3D_fields sampleEnv r1 (some 0) false
  have c1' := c1 (Or.inl (by rw [st1, a2]; decide))
  -- setup2D(false) again
  have hd0 : (r1.setup3D sampleEnv (some 0) false).2.setup2D false =
      (r1.setup3D sampleEnv (some 0) false).2.setup2D true :=
    setup2D_of_enter _ (by rw [c1']; decide)
  obtain ⟨-, -, -, -, -, -, -, d8, d9, -, -, d12, d13⟩ :=
    setup2D_forced (r1.setup3D sampleEnv (some 0) false).2
  rw [← hd0] at d8 d9 d12 d13
  have hbatch : ((r1.setup3D sampleEnv (some 0) false).2.setup2D false).2._spriteBatchMode =
      false := by rw [d13, c3, b1]
  have hmode : ((r1.setup3D sampleEnv (some 0) false).2.setup2D false).2._blendMode =
      .BLEND_ADDITIVE := by rw [d12, c2, bm1]; rfl
  have hfunc : blendFunc ((r1.setup3D sampleEnv (some 0) false).2.setup2D false).2.gl =
      (.GL_SRC_ALPHA, .GL_ONE_MINUS_SRC_ALPHA) := by
    simp only [blendFunc, d8, d9]
  -- the second additive sprite
  obtain ⟨r2, hd2, -, -, e4, e5, -, -⟩ := drawSprite_outside_batch sampleEnv
    ((r1.setup3D sampleEnv (some 0) false).2.setup2D false).2 0
    (sampleSpriteArgs .BLEND_ADDITIVE) hbatch
  have hfunc2 : blendFunc r2.gl = (.GL_SRC_ALPHA, .GL_ONE_MINUS_SRC_ALPHA) := by
    rw [e4, hmode, hfunc]
    rfl
  refine ⟨_, r2, ?_, hbatch, hmode, hfunc, rfl, hd2, e5, hfunc2, ?_⟩
  · simp only [runOps, runOp, sampleFrame, hd1, Option.map_some']
  · rw [hfunc2]
    decide

/-- Outside batch mode `endSpriteBatch` returns false and changes nothing. -/
theorem endSpriteBatch_off (env : Env) (r : BaseRenderOpenGL3DShader)
    (hOff : r._spriteBatchMode = false) :
    r.endSpriteBatch env = some (false, r) := by
  simp [endSpriteBatch, hOff]

/-! ### C17: `startSpriteBatch` does not start a batch -/

/-- C17: in every state `startSpriteBatch` returns true and changes nothing, the
sprite-batch-mode flag included.  Consequently, from a state whose batch flag is off,
`endSpriteBatch` right after `startSpriteBatch` returns false with the state unchanged;
every `drawSpriteEx` call made after `startSpriteBatch` returns true and ends with its own
triangle-strip draw; and after any sequence of such calls the flag is still off, one draw
per call has been issued, and `endSpriteBatch` still returns false without any change. -/
theorem startSpriteBatch_changes_nothing (env : Env) (r : BaseRenderOpenGL3DShader) :
    r.startSpriteBatch = (true, r) ∧
      (r._spriteBatchMode = false →
        (r.startSpriteBatch).2.endSpriteBatch env = some (false, r) ∧
        (∀ (t : Nat) (a : SpriteArgs),
          ∃ r1 : BaseRenderOpenGL3DShader,
            drawSprite env (r.startSpriteBatch).2 (some t) a = some (true, r1) ∧
            r1.gl.calls.getLast? = some (.drawArrays .GL_TRIANGLE_STRIP 0 4) ∧
            stripDraws r1.gl.calls = stripDraws r.gl.calls + 1) ∧
        (∀ calls : List (Nat × SpriteArgs),
          ∃ r1 : BaseRenderOpenGL3DShader,
            drawSprites env (r.startSpriteBatch).2 calls = some r1 ∧
            r1._spriteBatchMode = false ∧
            stripDraws r1.gl.calls = stripDraws r.gl.calls + calls.length ∧
            r1.endSpriteBatch env = some (false, r1))) := by
  refine ⟨rfl, fun hOff => ⟨endSpriteBatch_off env r hOff, ?_, ?_⟩⟩
  · intro t a
    obtain ⟨r1, hd, -, -, -, h5, h6, -⟩ := drawSprite_outside_batch env r t a hOff
    exact ⟨r1, hd, h5, h6⟩
  · intro calls
    obtain ⟨r1, hd, hb, hs⟩ := drawSprites_outside_batch env r calls hOff
    exact ⟨r1, hd, hb, hs, endSpriteBatch_off env r1 hb⟩

/-- C17 at a concrete input: the fresh sample renderer is outside batch mode; after
`startSpriteBatch` two sprite draws issue two triangle-strip draws and `endSpriteBatch`
returns false. -/
theorem startSpriteBatch_changes_nothing_witness :
    sampleRenderer._spriteBatchMode = false ∧
      (sampleRenderer.startSpriteBatch).2.endSpriteBatch sampleEnv =
        some (false, sampleRenderer) ∧
      ∃ r1 : BaseRenderOpenGL3DShader,
        drawSprites sampleEnv (sampleRenderer.startSpriteBatch).2
          [(0, sampleSpriteArgs .BLEND_NORMAL), (1, sampleSpriteArgs .BLEND_ADDITIVE)] =
            some r1 ∧
        r1._spriteBatchMode = false ∧
        stripDraws r1.gl.calls = stripDraws sampleRenderer.gl.calls +
          [(0, sampleSpriteArgs .BLEND_NORMAL), (1, sampleSpriteArgs .BLEND_ADDITIVE)].length ∧
        r1.endSpriteBatch sampleEnv = some (false, r1) :=
  ⟨rfl, ((startSpriteBatch_changes_nothing sampleEnv sampleRenderer).2 rfl).1,
    ((startSpriteBatch_changes_nothing sampleEnv sampleRenderer).2 rfl).2.2 _⟩

end BaseRenderOpenGL3DShader

end Wintermute
